import Mathlib

/-!
# Verification of the hindsight crash-inspector core

Shallow embedding, in Lean 4, of the parts of the hindsight debugger that the
frozen claims are about: the CRC-32 checksum (`crc32.hpp`), the binary log
writer (`WriterDebuggerEventHandler.cpp`), the binary log file layout
(`BinaryLogFile.hpp`), the binary log replayer (`BinaryLogPlayer.cpp`), the
stack-trace recursion collapser (`DebugStackTrace.cpp`), the module index
(`ModuleCollection.cpp`), the event pump (`Debugger.cpp`) and the MSVC RTTI
decoder (`ExceptionRtti.cpp`).

Machine integers are modelled as `Nat`.  All the integer operations the
embedded code performs on 32-bit words are `xor`, right shifts and masks, so
values stay below `2 ^ 32` without explicit wrap-around; shifts `>> k` are
written `/ 2^k` and masks `& 0xFF` are written `% 256`.  Byte streams are
`List Nat` with every element `< 256`; UTF-16 strings (`std::wstring`) are
lists of code units (`< 2 ^ 16`).
-/

namespace Hindsight

/-! ## CRC-32 (`crc32.hpp`)

`LookupTable::LookupTable` builds the 256-entry table for the reflected
polynomial `0xEDB88320`; `Crc32::Update` is the byte-at-a-time update with
initial and final XOR mask `0xFFFFFFFF`. -/

/-- The CRC-32 polynomial used by `Hindsight::Checksum::LookupTable`. -/
def crcPolynomial : Nat := 0xEDB88320

/-- One round of the inner loop of the `LookupTable` constructor:
`if (c & 1) c = polynomial ^ (c >> 1); else c >>= 1;`. -/
def lookupTableStep (c : Nat) : Nat :=
  if c % 2 = 1 then crcPolynomial ^^^ (c / 2) else c / 2

/-- `LookupTable::data[i]`: eight rounds of `lookupTableStep` applied to `i`. -/
def lookupEntry (i : Nat) : Nat := lookupTableStep^[8] i

/-- One byte step of `Crc32::Update`:
`c = table.data[(c ^ u[i]) & 0xFF] ^ (c >> 8);`. -/
def crc32Round (c b : Nat) : Nat :=
  lookupEntry ((c ^^^ b) % 256) ^^^ (c / 256)

/-- `Crc32::Update(buf, len, initial)`: XOR the initial value with
`0xFFFFFFFF`, run the byte loop, XOR the result with `0xFFFFFFFF`. -/
def Crc32Update (buf : List Nat) (initial : Nat) : Nat :=
  (buf.foldl crc32Round (initial ^^^ 0xFFFFFFFF)) ^^^ 0xFFFFFFFF

/-! Facts about the lookup table, established by evaluation. -/

set_option maxRecDepth 20000 in
/-- Every table entry fits in 32 bits. -/
theorem lookupEntry_lt : ∀ i < 256, lookupEntry i < 4294967296 := by decide

set_option maxRecDepth 20000 in
/-- The top bytes of the 256 table entries are pairwise distinct.  This is the
key algebraic property of the CRC-32 table: the byte fed into the table can be
recovered from the top byte of the table entry. -/
theorem lookupTable_topByte_nodup :
    ((List.range 256).map (fun i => lookupEntry i / 16777216)).Nodup := by decide

/-- Top-byte injectivity of the lookup table, extracted from
`lookupTable_topByte_nodup`. -/
theorem lookupEntry_topByte_inj {i j : Nat} (hi : i < 256) (hj : j < 256)
    (h : lookupEntry i / 16777216 = lookupEntry j / 16777216) : i = j :=
  List.inj_on_of_nodup_map lookupTable_topByte_nodup
    (List.mem_range.mpr hi) (List.mem_range.mpr hj) h

/-! Bit-level helper lemmas about XOR on `Nat`. -/

theorem xor_lt_32 {a b : Nat} (ha : a < 4294967296) (hb : b < 4294967296) :
    a ^^^ b < 4294967296 := by
  have h : (4294967296 : Nat) = 2 ^ 32 := by norm_num
  rw [h] at ha hb ⊢
  exact Nat.xor_lt_two_pow ha hb

/-- XOR with a value below `2 ^ 24` does not change bits 24 and above. -/
theorem xor_div_high {x y : Nat} (hy : y < 16777216) :
    (x ^^^ y) / 16777216 = x / 16777216 := by
  have h24 : (16777216 : Nat) = 2 ^ 24 := by norm_num
  rw [h24] at hy ⊢
  rw [← Nat.shiftRight_eq_div_pow, ← Nat.shiftRight_eq_div_pow]
  apply Nat.eq_of_testBit_eq
  intro k
  rw [Nat.testBit_shiftRight, Nat.testBit_shiftRight, Nat.testBit_xor]
  have hybit : y.testBit (24 + k) = false :=
    Nat.testBit_lt_two_pow
      (lt_of_lt_of_le hy (Nat.pow_le_pow_right (by norm_num) (by omega)))
  rw [hybit, Bool.xor_false]

/-- XOR commutes with `% 256`. -/
theorem xor_mod_256 (x y : Nat) :
    (x ^^^ y) % 256 = (x % 256) ^^^ (y % 256) := by
  have h8 : (256 : Nat) = 2 ^ 8 := by norm_num
  rw [h8]
  apply Nat.eq_of_testBit_eq
  intro k
  rw [Nat.testBit_mod_two_pow, Nat.testBit_xor, Nat.testBit_xor,
    Nat.testBit_mod_two_pow, Nat.testBit_mod_two_pow]
  by_cases hk : k < 8 <;> simp [hk]

/-! Properties of one CRC round. -/

/-- A CRC round keeps the accumulator below `2 ^ 32` (for any byte argument:
the table index is always reduced modulo 256). -/
theorem crc32Round_lt {c : Nat} (hc : c < 4294967296) (b : Nat) :
    crc32Round c b < 4294967296 := by
  unfold crc32Round
  apply xor_lt_32
  · exact lookupEntry_lt _ (Nat.mod_lt _ (by norm_num))
  · omega

/-- For a fixed byte, a CRC round is injective in the accumulator. -/
theorem crc32Round_inj {b c c' : Nat}
    (hc : c < 4294967296) (hc' : c' < 4294967296)
    (h : crc32Round c b = crc32Round c' b) : c = c' := by
  unfold crc32Round at h
  have hidx : (c ^^^ b) % 256 < 256 := Nat.mod_lt _ (by norm_num)
  have hidx' : (c' ^^^ b) % 256 < 256 := Nat.mod_lt _ (by norm_num)
  have hdiv : c / 256 < 16777216 := by omega
  have hdiv' : c' / 256 < 16777216 := by omega
  -- compare the top bytes: the low parts cannot reach them
  have htop : lookupEntry ((c ^^^ b) % 256) / 16777216
      = lookupEntry ((c' ^^^ b) % 256) / 16777216 := by
    have h1 := congrArg (· / 16777216) h
    simpa [xor_div_high hdiv, xor_div_high hdiv'] using h1
  have hieq : (c ^^^ b) % 256 = (c' ^^^ b) % 256 :=
    lookupEntry_topByte_inj hidx hidx' htop
  -- equal indices give equal table entries, hence equal high parts
  have hdiveq : c / 256 = c' / 256 := by
    rw [hieq] at h
    exact Nat.xor_right_inj.mp h
  -- equal indices also give equal low bytes
  have hmodeq : c % 256 = c' % 256 := by
    rw [xor_mod_256, xor_mod_256] at hieq
    exact Nat.xor_left_inj.mp hieq
  omega

/-- Distinct bytes fed into the same accumulator give distinct CRC rounds. -/
theorem crc32Round_ne {b b' : Nat} (c : Nat) (hb : b < 256) (hb' : b' < 256)
    (hne : b ≠ b') : crc32Round c b ≠ crc32Round c b' := by
  intro h
  unfold crc32Round at h
  have hidx : (c ^^^ b) % 256 < 256 := Nat.mod_lt _ (by norm_num)
  have hidx' : (c ^^^ b') % 256 < 256 := Nat.mod_lt _ (by norm_num)
  have hteq : lookupEntry ((c ^^^ b) % 256) = lookupEntry ((c ^^^ b') % 256) :=
    Nat.xor_left_inj.mp h
  have hieq : (c ^^^ b) % 256 = (c ^^^ b') % 256 :=
    lookupEntry_topByte_inj hidx hidx' (congrArg (· / 16777216) hteq)
  rw [xor_mod_256, xor_mod_256] at hieq
  have hb256 : b % 256 = b' % 256 := Nat.xor_right_inj.mp hieq
  omega

/-! Properties of the byte fold. -/

theorem foldl_crc32Round_lt (l : List Nat) {c : Nat} (hc : c < 4294967296) :
    l.foldl crc32Round c < 4294967296 := by
  induction l generalizing c with
  | nil => exact hc
  | cons b t ih => exact ih (crc32Round_lt hc b)

theorem foldl_crc32Round_inj (l : List Nat)
    {c c' : Nat} (hc : c < 4294967296) (hc' : c' < 4294967296)
    (h : l.foldl crc32Round c = l.foldl crc32Round c') : c = c' := by
  induction l generalizing c c' with
  | nil => exact h
  | cons b t ih =>
    exact crc32Round_inj hc hc'
      (ih (crc32Round_lt hc b) (crc32Round_lt hc' b) h)

/-- The final CRC value is always a 32-bit word when the initial one is. -/
theorem Crc32Update_lt (buf : List Nat) {initial : Nat}
    (hinit : initial < 4294967296) : Crc32Update buf initial < 4294967296 := by
  unfold Crc32Update
  exact xor_lt_32 (foldl_crc32Round_lt _ (xor_lt_32 hinit (by norm_num))) (by norm_num)

/-- Chaining: updating with `a` then with `b` is updating with `a ++ b`.
This is how the writer and the replayer accumulate one CRC over many calls. -/
theorem Crc32Update_append (a b : List Nat) (initial : Nat) :
    Crc32Update b (Crc32Update a initial) = Crc32Update (a ++ b) initial := by
  unfold Crc32Update
  rw [List.foldl_append, Nat.xor_cancel_right]

/-- Changing a single byte of the input changes the CRC: the central lemma
behind the tamper-detection claims. -/
theorem Crc32Update_single_byte_ne (pre suf : List Nat) {mid mid' : Nat}
    (hm : mid < 256) (hm' : mid' < 256) (hne : mid ≠ mid')
    {initial : Nat} (hinit : initial < 4294967296) :
    Crc32Update (pre ++ mid :: suf) initial ≠ Crc32Update (pre ++ mid' :: suf) initial := by
  intro h
  unfold Crc32Update at h
  have hmask : initial ^^^ 0xFFFFFFFF < 4294967296 := xor_lt_32 hinit (by norm_num)
  have hacc : pre.foldl crc32Round (initial ^^^ 0xFFFFFFFF) < 4294967296 :=
    foldl_crc32Round_lt pre hmask
  rw [List.foldl_append, List.foldl_append] at h
  have h2 := Nat.xor_left_inj.mp h
  simp only [List.foldl_cons] at h2
  have h3 := foldl_crc32Round_inj suf
    (crc32Round_lt hacc _) (crc32Round_lt hacc _) h2
  exact crc32Round_ne _ hm hm' hne h3

/-! ## Little-endian byte serialization

All structs in `BinaryLogFile.hpp` are `#pragma pack(1)` and written verbatim
to the stream on a little-endian machine, so each integer field becomes its
little-endian byte sequence. -/

/-- A 16-bit value as two little-endian bytes (one `wchar_t`). -/
def u16le (x : Nat) : List Nat := [x % 256, x / 256 % 256]

/-- A 32-bit value as four little-endian bytes. -/
def u32le (x : Nat) : List Nat :=
  [x % 256, x / 256 % 256, x / 65536 % 256, x / 16777216 % 256]

/-- A 64-bit value as eight little-endian bytes. -/
def u64le (x : Nat) : List Nat := u32le (x % 4294967296) ++ u32le (x / 4294967296)

/-- A signed 64-bit value (such as `int64_t ModuleIndex`) in two's complement. -/
def i64le (x : Int) : List Nat := u64le ((x % (18446744073709551616 : Int)).toNat)

/-- Read four little-endian bytes back into a 32-bit value. -/
def readU32le (l : List Nat) : Nat :=
  l.getD 0 0 + 256 * l.getD 1 0 + 65536 * l.getD 2 0 + 16777216 * l.getD 3 0

/-- Read eight little-endian bytes back into a 64-bit value. -/
def readU64le (l : List Nat) : Nat :=
  readU32le (l.take 4) + 4294967296 * readU32le ((l.drop 4).take 4)

/-- Read eight little-endian bytes back into a signed 64-bit value. -/
def readI64le (l : List Nat) : Int :=
  let v := readU64le l
  if v < 9223372036854775808 then (v : Int) else (v : Int) - 18446744073709551616

/-- A `std::wstring` (UTF-16LE code units) as raw bytes, the way
`WriterDebuggerEventHandler::Write(const std::wstring&)` emits it. -/
def serializeWideString (s : List Nat) : List Nat := s.flatMap u16le

/-- Decode raw bytes back into UTF-16 code units (the replayer's
`Read(std::wstring&, size)`). -/
def parseWideString : List Nat → List Nat
  | b0 :: b1 :: rest => (b0 + 256 * b1) :: parseWideString rest
  | _ => []

theorem u16le_length (x : Nat) : (u16le x).length = 2 := rfl

theorem u32le_length (x : Nat) : (u32le x).length = 4 := rfl

theorem u64le_length (x : Nat) : (u64le x).length = 8 := rfl

theorem i64le_length (x : Int) : (i64le x).length = 8 := rfl

theorem serializeWideString_length (s : List Nat) :
    (serializeWideString s).length = 2 * s.length := by
  induction s with
  | nil => rfl
  | cons u t ih => simp [serializeWideString, u16le] at ih ⊢; omega

theorem u16le_lt (x : Nat) : ∀ b ∈ u16le x, b < 256 := by
  simp [u16le]; omega

theorem u32le_lt (x : Nat) : ∀ b ∈ u32le x, b < 256 := by
  simp [u32le]; omega

theorem u64le_lt (x : Nat) : ∀ b ∈ u64le x, b < 256 := by
  simp only [u64le, List.mem_append]
  intro b hb
  rcases hb with h | h
  · exact u32le_lt _ b h
  · exact u32le_lt _ b h

theorem i64le_lt (x : Int) : ∀ b ∈ i64le x, b < 256 := u64le_lt _

theorem serializeWideString_lt (s : List Nat) :
    ∀ b ∈ serializeWideString s, b < 256 := by
  intro b hb
  simp only [serializeWideString, List.mem_flatMap] at hb
  obtain ⟨u, _, hu⟩ := hb
  exact u16le_lt u b hu

theorem readU32le_u32le {x : Nat} (hx : x < 4294967296) (rest : List Nat) :
    readU32le (u32le x ++ rest) = x := by
  simp [u32le, readU32le]
  omega

theorem readU32le_u32le_nil {x : Nat} (hx : x < 4294967296) :
    readU32le (u32le x) = x := by
  simp [u32le, readU32le]
  omega

theorem readU64le_u64le {x : Nat} (hx : x < 18446744073709551616) (rest : List Nat) :
    readU64le (u64le x ++ rest) = x := by
  have h1 : u64le x ++ rest = u32le (x % 4294967296) ++ (u32le (x / 4294967296) ++ rest) := by
    simp [u64le]
  rw [readU64le, h1]
  have htake : (u32le (x % 4294967296) ++ (u32le (x / 4294967296) ++ rest)).take 4
      = u32le (x % 4294967296) := by
    simp [u32le]
  have hdrop : (u32le (x % 4294967296) ++ (u32le (x / 4294967296) ++ rest)).drop 4
      = u32le (x / 4294967296) ++ rest := by
    simp [u32le]
  rw [htake, hdrop, readU32le_u32le_nil (by omega)]
  rw [show (u32le (x / 4294967296) ++ rest).take 4 = u32le (x / 4294967296) by
    simp [u32le], readU32le_u32le_nil (by omega)]
  omega

/-! ## Binary log file header (`BinaryLogFile.hpp`, `struct FileHeader`)

```
struct FileHeader {
  char     Signature[4] = { 'H', 'I', 'N', 'D' };
  uint32_t Version = hindsight_version_int;
  uint32_t ProcessId;
  uint32_t ThreadId;
  uint64_t PathLength;
  uint64_t WorkingDirectoryLength;
  uint64_t Arguments;
  time_t   StartTime;
  uint32_t Crc32;
};
```
packed, so 4+4+4+4+8+8+8+8+4 = 52 bytes, with `Crc32` at byte offset 48.
(`time_t` is the 8-byte `__time64_t` on the targeted MSVC platform.) -/

/-- `hindsight_version_int` for version 0.6.2.0 (`Version.hpp`):
`(0 << 24) | (6 << 16) | (2 << 8) | 0`. -/
def hindsightVersionInt : Nat := 393728

structure FileHeader where
  Version : Nat
  ProcessId : Nat
  ThreadId : Nat
  PathLength : Nat
  WorkingDirectoryLength : Nat
  Arguments : Nat
  StartTime : Nat
  Crc32 : Nat
deriving DecidableEq, Repr

/-- The byte image of a `FileHeader`, as `Write((const char*)&m_Header,
sizeof(FileHeader))` emits it. -/
def serializeFileHeader (h : FileHeader) : List Nat :=
  [72, 73, 78, 68] ++ u32le h.Version ++ u32le h.ProcessId ++ u32le h.ThreadId ++
  u64le h.PathLength ++ u64le h.WorkingDirectoryLength ++ u64le h.Arguments ++
  u64le h.StartTime ++ u32le h.Crc32

theorem serializeFileHeader_length (h : FileHeader) :
    (serializeFileHeader h).length = 52 := by
  simp [serializeFileHeader, u32le, u64le]

theorem serializeFileHeader_lt (h : FileHeader) :
    ∀ b ∈ serializeFileHeader h, b < 256 := by
  intro b hb
  simp only [serializeFileHeader, List.mem_append] at hb
  rcases hb with ((((((((h1 | h1) | h1) | h1) | h1) | h1) | h1) | h1) | h1)
  · fin_cases h1 <;> norm_num
  all_goals first
    | exact u32le_lt _ b h1
    | exact u64le_lt _ b h1

/-! ## The binary writer (`WriterDebuggerEventHandler.cpp`)

`Write(const char* data, size_t size, bool updateChecksum = true)` appends
`size` bytes to the stream and, when `updateChecksum` holds, folds them into
`m_Header.Crc32` via `Crc32::Update`.  The writer state is the byte stream
produced so far together with the in-memory header. -/

structure WriterState where
  stream : List Nat
  Header : FileHeader
deriving DecidableEq, Repr

/-- `WriterDebuggerEventHandler::Write(const char*, size_t, bool)`. -/
def WriterWrite (s : WriterState) (data : List Nat) (updateChecksum : Bool) : WriterState :=
  { stream := s.stream ++ data
    Header :=
      if updateChecksum then
        { s.Header with Crc32 := Crc32Update data s.Header.Crc32 }
      else s.Header }

/-- `Write(const std::wstring& s, bool writeLength = false)`: nothing for an
empty string; otherwise optionally a `uint32_t` length, then the raw UTF-16
bytes.  Both writes use the checksum. -/
def WriterWriteWString (s : WriterState) (w : List Nat) (writeLength : Bool) : WriterState :=
  if w = [] then s
  else
    let s1 := if writeLength then WriterWrite s (u32le w.length) true else s
    WriterWrite s1 (serializeWideString w) true

/-- `Write(const std::string& s, bool writeLength = false)`: same, with
single-byte characters. -/
def WriterWriteString (s : WriterState) (str : List Nat) (writeLength : Bool) : WriterState :=
  if str = [] then s
  else
    let s1 := if writeLength then WriterWrite s (u32le str.length) true else s
    WriterWrite s1 str true

/-- `WriterDebuggerEventHandler::OnInitialization`: fill in the header with
`Crc32 = 0`, write it with the checksum *disabled*, then write the debuggee
path, the working directory and each length-prefixed argument (all three with
the checksum enabled). -/
def WriterOnInitialization (pid tid : Nat) (path wdir : List Nat)
    (args : List (List Nat)) (startTime : Nat) : WriterState :=
  let hdr : FileHeader :=
    { Version := hindsightVersionInt, ProcessId := pid, ThreadId := tid,
      PathLength := path.length, WorkingDirectoryLength := wdir.length,
      Arguments := args.length, StartTime := startTime, Crc32 := 0 }
  let s0 : WriterState := { stream := [], Header := hdr }
  let s1 := WriterWrite s0 (serializeFileHeader hdr) false
  let s2 := WriterWriteWString s1 path false
  let s3 := WriterWriteWString s2 wdir false
  args.foldl (fun s a => WriterWriteString s a true) s3

/-- Overwrite part of the stream in place, the effect of `seekp` + `write`
on a file. -/
def overwriteAt (stream : List Nat) (pos : Nat) (data : List Nat) : List Nat :=
  stream.take pos ++ data ++ stream.drop (pos + data.length)

/-- `WriterDebuggerEventHandler::OnModuleCollectionComplete`: seek to the
start of the file, rewrite the whole 52-byte header (whose `Crc32` member now
holds the accumulated checksum), seek back to the end.  The header write goes
through `Write(T)` whose `updateChecksum` defaults to `true`, so the in-memory
`Crc32` keeps accumulating after the bytes were emitted; nothing observes it
afterwards. -/
def WriterOnModuleCollectionComplete (s : WriterState) : WriterState :=
  let bytes := serializeFileHeader s.Header
  { stream := overwriteAt s.stream 0 bytes
    Header := { s.Header with Crc32 := Crc32Update bytes s.Header.Crc32 } }

/-- A sequence of serialized event records, each streamed through
`Write(..., updateChecksum = true)`. -/
def WriterWriteEvents (s : WriterState) (chunks : List (List Nat)) : WriterState :=
  chunks.foldl (fun st c => WriterWrite st c true) s

/-- A complete writer session: initialization, an arbitrary sequence of event
records, and the final header fix-up. -/
def writeSession (pid tid : Nat) (path wdir : List Nat) (args : List (List Nat))
    (startTime : Nat) (chunks : List (List Nat)) : WriterState :=
  WriterOnModuleCollectionComplete
    (WriterWriteEvents (WriterOnInitialization pid tid path wdir args startTime) chunks)

/-! ## The replayer's open-time checks (`BinaryLogPlayer.cpp`) -/

/-- `FileHeader` parsed back from the first 52 bytes of a file, the effect of
the constructor's `Read(reinterpret_cast<char*>(&m_Header), sizeof(FileHeader),
false)`. -/
def parseFileHeader (file : List Nat) : FileHeader :=
  { Version := readU32le ((file.drop 4).take 4)
    ProcessId := readU32le ((file.drop 8).take 4)
    ThreadId := readU32le ((file.drop 12).take 4)
    PathLength := readU64le ((file.drop 16).take 8)
    WorkingDirectoryLength := readU64le ((file.drop 24).take 8)
    Arguments := readU64le ((file.drop 32).take 8)
    StartTime := readU64le ((file.drop 40).take 8)
    Crc32 := readU32le ((file.drop 48).take 4) }

/-- `BinaryLogPlayer::CheckSanity`'s `while` loop: CRC the remainder of the
file in chunks of `ChecksumBufferSize = 2048` bytes. -/
def CheckSanityLoop (bytes : List Nat) (check : Nat) : Nat :=
  if h : bytes = [] then check
  else CheckSanityLoop (bytes.drop 2048) (Crc32Update (bytes.take 2048) check)
termination_by bytes.length
decreasing_by
  have hpos : 0 < bytes.length := List.length_pos.mpr h
  simp only [List.length_drop]
  omega

/-- The error message `CheckSanity` throws on a checksum mismatch. -/
def checkSanityError : String :=
  "file has been damaged, never finished writing or was appended to. Use --no-sanity-check to ignore this check."

/-- `BinaryLogPlayer::CheckSanity`: stream everything after the 52-byte header
through the CRC (starting from `m_Crc32 = 0`) and compare with the header's
stored checksum.  `none` means success, `some e` models the thrown
`std::runtime_error`. -/
def CheckSanity (file : List Nat) : Option String :=
  if CheckSanityLoop (file.drop 52) 0 = (parseFileHeader file).Crc32 then none
  else some checkSanityError

/-- The chunked sanity loop computes exactly one CRC over all the bytes. -/
theorem CheckSanityLoop_eq (bytes : List Nat) (check : Nat) :
    CheckSanityLoop bytes check = Crc32Update bytes check := by
  by_cases h : bytes = []
  · subst h
    rw [CheckSanityLoop]
    simp [Crc32Update, Nat.xor_cancel_right]
  · rw [CheckSanityLoop, dif_neg h,
      CheckSanityLoop_eq (bytes.drop 2048) (Crc32Update (bytes.take 2048) check),
      Crc32Update_append, List.take_append_drop]
termination_by bytes.length
decreasing_by
  have hpos : 0 < bytes.length := List.length_pos.mpr h
  simp only [List.length_drop]
  omega

theorem parseWideString_serializeWideString {s : List Nat}
    (hs : ∀ u ∈ s, u < 65536) : parseWideString (serializeWideString s) = s := by
  induction s with
  | nil => rfl
  | cons u t ih =>
    have hu : u < 65536 := hs u (List.mem_cons_self ..)
    have ht : ∀ v ∈ t, v < 65536 := fun v hv => hs v (List.mem_cons_of_mem _ hv)
    simp only [serializeWideString, List.flatMap_cons] at *
    rw [show u16le u ++ t.flatMap u16le
        = u % 256 :: u / 256 % 256 :: t.flatMap u16le from rfl]
    rw [parseWideString, ih ht]
    congr 1
    omega

theorem readU64le_u64le_nil {x : Nat} (hx : x < 18446744073709551616) :
    readU64le (u64le x) = x := by
  rw [show u64le x = u64le x ++ [] by simp]
  exact readU64le_u64le hx []

/-- Reading back a serialized header recovers it, provided its fields fit the
on-disk field widths. -/
theorem parseFileHeader_serializeFileHeader (h : FileHeader) (rest : List Nat)
    (hV : h.Version < 4294967296) (hP : h.ProcessId < 4294967296)
    (hT : h.ThreadId < 4294967296) (hPL : h.PathLength < 18446744073709551616)
    (hWL : h.WorkingDirectoryLength < 18446744073709551616)
    (hAR : h.Arguments < 18446744073709551616)
    (hST : h.StartTime < 18446744073709551616) (hC : h.Crc32 < 4294967296) :
    parseFileHeader (serializeFileHeader h ++ rest) = h := by
  obtain ⟨V, P, T, PL, WL, AR, ST, C⟩ := h
  simp only at hV hP hT hPL hWL hAR hST hC
  have e1 : parseFileHeader (serializeFileHeader ⟨V, P, T, PL, WL, AR, ST, C⟩ ++ rest)
      = { Version := readU32le (u32le V), ProcessId := readU32le (u32le P),
          ThreadId := readU32le (u32le T), PathLength := readU64le (u64le PL),
          WorkingDirectoryLength := readU64le (u64le WL),
          Arguments := readU64le (u64le AR), StartTime := readU64le (u64le ST),
          Crc32 := readU32le (u32le C) } := rfl
  rw [e1, readU32le_u32le_nil hV, readU32le_u32le_nil hP, readU32le_u32le_nil hT,
    readU64le_u64le_nil hPL, readU64le_u64le_nil hWL, readU64le_u64le_nil hAR,
    readU64le_u64le_nil hST, readU32le_u32le_nil hC]

theorem Crc32Update_nil (c : Nat) : Crc32Update [] c = c := by
  simp [Crc32Update, Nat.xor_cancel_right]

/-! Structure of a full writer session. -/

/-- The bytes `Write(const std::wstring&, writeLength = false)` appends. -/
def wstringBytes (w : List Nat) : List Nat :=
  if w = [] then [] else serializeWideString w

/-- The bytes `Write(argument, true)` appends for one program argument. -/
def argumentBytes (a : List Nat) : List Nat :=
  if a = [] then [] else u32le a.length ++ a

/-- The bytes between the file header and the first event record: the debuggee
path, the working directory and the length-prefixed arguments. -/
def writerTrailer (path wdir : List Nat) (args : List (List Nat)) : List Nat :=
  wstringBytes path ++ wstringBytes wdir ++ args.flatMap argumentBytes

/-- The header as `OnInitialization` fills it in. -/
def initialHeader (pid tid : Nat) (path wdir : List Nat) (args : List (List Nat))
    (startTime : Nat) : FileHeader :=
  { Version := hindsightVersionInt, ProcessId := pid, ThreadId := tid,
    PathLength := path.length, WorkingDirectoryLength := wdir.length,
    Arguments := args.length, StartTime := startTime, Crc32 := 0 }

/-- Everything a session writes after the 52-byte header: the trailer and the
concatenated event records.  This is exactly the CRC-covered region. -/
def sessionBody (path wdir : List Nat) (args : List (List Nat))
    (chunks : List (List Nat)) : List Nat :=
  writerTrailer path wdir args ++ chunks.flatMap (fun c => c)

theorem WriterWriteWString_false_spec (s : WriterState) (w : List Nat) :
    WriterWriteWString s w false =
      { stream := s.stream ++ wstringBytes w
        Header := { s.Header with Crc32 := Crc32Update (wstringBytes w) s.Header.Crc32 } } := by
  unfold WriterWriteWString wstringBytes
  by_cases h : w = [] <;> simp [h, WriterWrite, Crc32Update_nil]

theorem WriterWriteString_true_spec (s : WriterState) (a : List Nat) :
    WriterWriteString s a true =
      { stream := s.stream ++ argumentBytes a
        Header := { s.Header with Crc32 := Crc32Update (argumentBytes a) s.Header.Crc32 } } := by
  unfold WriterWriteString argumentBytes
  by_cases h : a = []
  · simp [h, Crc32Update_nil]
  · simp only [h, if_neg, ite_false, ite_true, WriterWrite, eq_self_iff_true]
    refine congrArg₂ WriterState.mk ?_ ?_
    · simp [List.append_assoc]
    · simp [Crc32Update_append]

/-- Folding a writer step that appends `g a` bytes (with checksum) over a list
appends the concatenation of all the `g a` and chains the CRC accordingly. -/
theorem writer_foldl_spec {α : Type} (g : α → List Nat)
    (step : WriterState → α → WriterState)
    (hstep : ∀ s a, step s a =
      { stream := s.stream ++ g a
        Header := { s.Header with Crc32 := Crc32Update (g a) s.Header.Crc32 } })
    (L : List α) (s : WriterState) :
    L.foldl step s =
      { stream := s.stream ++ L.flatMap g
        Header := { s.Header with Crc32 := Crc32Update (L.flatMap g) s.Header.Crc32 } } := by
  induction L generalizing s with
  | nil => simp [Crc32Update_nil]
  | cons a t ih =>
    rw [List.foldl_cons, hstep, ih]
    refine congrArg₂ WriterState.mk ?_ ?_
    · simp [List.append_assoc]
    · simp [Crc32Update_append]

theorem WriterOnInitialization_spec (pid tid : Nat) (path wdir : List Nat)
    (args : List (List Nat)) (startTime : Nat) :
    WriterOnInitialization pid tid path wdir args startTime =
      { stream := serializeFileHeader (initialHeader pid tid path wdir args startTime)
            ++ writerTrailer path wdir args
        Header := { initialHeader pid tid path wdir args startTime with
          Crc32 := Crc32Update (writerTrailer path wdir args) 0 } } := by
  unfold WriterOnInitialization
  rw [writer_foldl_spec argumentBytes _ WriterWriteString_true_spec]
  rw [WriterWriteWString_false_spec, WriterWriteWString_false_spec]
  refine congrArg₂ WriterState.mk ?_ ?_
  · simp [WriterWrite, initialHeader, writerTrailer, List.append_assoc]
  · simp [WriterWrite, initialHeader, writerTrailer, Crc32Update_append,
      List.append_assoc]

theorem WriterWriteEvents_spec (s : WriterState) (chunks : List (List Nat)) :
    WriterWriteEvents s chunks =
      { stream := s.stream ++ chunks.flatMap (fun c => c)
        Header := { s.Header with
          Crc32 := Crc32Update (chunks.flatMap (fun c => c)) s.Header.Crc32 } } := by
  unfold WriterWriteEvents
  exact writer_foldl_spec (fun c => c) _ (fun _ _ => rfl) chunks s

/-- The final header of a session: the initial one with the CRC of the body. -/
def finalHeader (pid tid : Nat) (path wdir : List Nat) (args : List (List Nat))
    (startTime : Nat) (chunks : List (List Nat)) : FileHeader :=
  { initialHeader pid tid path wdir args startTime with
    Crc32 := Crc32Update (sessionBody path wdir args chunks) 0 }

/-- The byte stream a complete writer session leaves on disk: the finalized
52-byte header followed by the CRC-covered body. -/
theorem writeSession_stream (pid tid : Nat) (path wdir : List Nat)
    (args : List (List Nat)) (startTime : Nat) (chunks : List (List Nat)) :
    (writeSession pid tid path wdir args startTime chunks).stream =
      serializeFileHeader (finalHeader pid tid path wdir args startTime chunks)
        ++ sessionBody path wdir args chunks := by
  unfold writeSession
  rw [WriterOnInitialization_spec, WriterWriteEvents_spec]
  unfold WriterOnModuleCollectionComplete overwriteAt
  simp only [List.take_zero, List.nil_append, Nat.zero_add, serializeFileHeader_length]
  rw [show (serializeFileHeader (initialHeader pid tid path wdir args startTime)
      ++ writerTrailer path wdir args) ++ chunks.flatMap (fun c => c)
      = serializeFileHeader (initialHeader pid tid path wdir args startTime)
        ++ sessionBody path wdir args chunks by
    simp [sessionBody, List.append_assoc]]
  rw [List.drop_left' (serializeFileHeader_length _)]
  congr 2
  unfold finalHeader sessionBody initialHeader
  simp [FileHeader.mk.injEq, Crc32Update_append]

/-- Every byte of the session body is a byte (below 256), provided the raw
argument strings and the serialized event records are. -/
theorem sessionBody_lt (path wdir : List Nat) (args : List (List Nat))
    (chunks : List (List Nat))
    (hargs : ∀ a ∈ args, ∀ b ∈ a, b < 256)
    (hchunks : ∀ c ∈ chunks, ∀ b ∈ c, b < 256) :
    ∀ b ∈ sessionBody path wdir args chunks, b < 256 := by
  intro b hb
  simp only [sessionBody, writerTrailer, List.mem_append, List.mem_flatMap] at hb
  rcases hb with ((h | h) | ⟨a, ha, h⟩) | ⟨c, hc, h⟩
  · unfold wstringBytes at h
    split at h
    · simp at h
    · exact serializeWideString_lt _ b h
  · unfold wstringBytes at h
    split at h
    · simp at h
    · exact serializeWideString_lt _ b h
  · unfold argumentBytes at h
    split at h
    · simp at h
    · rcases List.mem_append.mp h with h1 | h1
      · exact u32le_lt _ b h1
      · exact hargs a ha b h1
  · exact hchunks c hc b h

/-- Dropping the first 48 bytes of a serialized header leaves exactly the
serialized `Crc32` field. -/
theorem serializeFileHeader_drop48 (h : FileHeader) (rest : List Nat) :
    (serializeFileHeader h ++ rest).drop 48 = u32le h.Crc32 ++ rest := by
  obtain ⟨V, P, T, PL, WL, AR, ST, C⟩ := h
  rfl

/-- The stored checksum parses back from byte offset 48. -/
theorem parseFileHeader_crc (h : FileHeader) (rest : List Nat)
    (hC : h.Crc32 < 4294967296) :
    (parseFileHeader (serializeFileHeader h ++ rest)).Crc32 = h.Crc32 := by
  show readU32le (((serializeFileHeader h ++ rest).drop 48).take 4) = h.Crc32
  rw [serializeFileHeader_drop48, List.take_left' (u32le_length _),
    readU32le_u32le_nil hC]

/-- **C1**  For every event sequence written through the binary writer sink
into a log file whose header was finalized by `OnModuleCollectionComplete`,
replaying the file with the sanity check enabled succeeds — `CheckSanity`
accepts — and the CRC-32 accumulated over the body (everything after the
52-byte header) equals the CRC stored in the header; and flipping any single
byte of the body (changing any byte after the file header to any other byte
value) makes the replayer reject the file with the damaged-file error. -/
theorem c1_crc_round_trip_and_tamper_rejection
    (pid tid startTime : Nat) (path wdir : List Nat) (args chunks : List (List Nat))
    (hargs : ∀ a ∈ args, ∀ b ∈ a, b < 256)
    (hchunks : ∀ c ∈ chunks, ∀ b ∈ c, b < 256) :
    (CheckSanity (writeSession pid tid path wdir args startTime chunks).stream = none
      ∧ Crc32Update ((writeSession pid tid path wdir args startTime chunks).stream.drop 52) 0
          = (parseFileHeader (writeSession pid tid path wdir args startTime chunks).stream).Crc32)
    ∧ ∀ i, 52 ≤ i → i < (writeSession pid tid path wdir args startTime chunks).stream.length →
        ∀ b, b < 256 →
          b ≠ (writeSession pid tid path wdir args startTime chunks).stream.getD i 0 →
          CheckSanity ((writeSession pid tid path wdir args startTime chunks).stream.set i b)
            = some checkSanityError := by
  rw [writeSession_stream]
  set H := finalHeader pid tid path wdir args startTime chunks with hH
  set B := sessionBody path wdir args chunks with hB
  have hBlt : ∀ b ∈ B, b < 256 := sessionBody_lt path wdir args chunks hargs hchunks
  have hCrc : H.Crc32 = Crc32Update B 0 := rfl
  have hClt : H.Crc32 < 4294967296 := by
    rw [hCrc]; exact Crc32Update_lt _ (by norm_num)
  have hdrop : (serializeFileHeader H ++ B).drop 52 = B :=
    List.drop_left' (serializeFileHeader_length _)
  have hparse : (parseFileHeader (serializeFileHeader H ++ B)).Crc32 = H.Crc32 :=
    parseFileHeader_crc H B hClt
  refine ⟨⟨?_, ?_⟩, ?_⟩
  · unfold CheckSanity
    rw [hdrop, CheckSanityLoop_eq, hparse, if_pos hCrc.symm]
  · rw [hdrop, hparse]
    exact hCrc.symm
  · intro i hi52 hilen b hb hbne
    have hlen52 : (serializeFileHeader H).length ≤ i := by
      rw [serializeFileHeader_length]; exact hi52
    have hset : (serializeFileHeader H ++ B).set i b
        = serializeFileHeader H ++ B.set (i - 52) b := by
      rw [List.set_append_right _ _ hlen52, serializeFileHeader_length]
    have hj : i - 52 < B.length := by
      rw [List.length_append, serializeFileHeader_length] at hilen
      omega
    have hgetD : (serializeFileHeader H ++ B).getD i 0 = B[i - 52] := by
      rw [List.getD_eq_getElem _ _ hilen,
        List.getElem_append_right (by rw [serializeFileHeader_length]; exact hi52)]
      simp [serializeFileHeader_length]
    have hbne' : B[i - 52] ≠ b := by
      rw [hgetD] at hbne
      exact fun h => hbne h.symm
    have hmem : B[i - 52] ∈ B := List.getElem_mem _
    have hsplitB : B = B.take (i - 52) ++ B[i - 52] :: B.drop (i - 52 + 1) := by
      conv_lhs => rw [← List.take_append_drop (i - 52) B]
      rw [List.drop_eq_getElem_cons hj]
    have hsplitSet : B.set (i - 52) b
        = B.take (i - 52) ++ b :: B.drop (i - 52 + 1) :=
      List.set_eq_take_cons_drop b hj
    have hne : Crc32Update (B.set (i - 52) b) 0 ≠ H.Crc32 := by
      rw [hCrc, hsplitSet]
      conv_rhs => rw [hsplitB]
      exact Crc32Update_single_byte_ne _ _ hb (hBlt _ hmem)
        (fun h => hbne' h.symm) (by norm_num)
    unfold CheckSanity
    rw [hset, List.drop_left' (serializeFileHeader_length _), CheckSanityLoop_eq,
      parseFileHeader_crc H _ hClt, if_neg hne]

/-- Witness for `c1_crc_round_trip_and_tamper_rejection`: a concrete session
with one argument and one event record, instantiated at a concrete flip. -/
theorem c1_crc_round_trip_and_tamper_rejection_witness :
    ((∀ a ∈ [[65, 66]], ∀ b ∈ a, b < 256)
      ∧ (∀ c ∈ [[9, 8, 7]], ∀ b ∈ c, b < 256))
    ∧ ((CheckSanity (writeSession 1 2 [72] [87] [[65, 66]] 1700000000 [[9, 8, 7]]).stream = none
      ∧ Crc32Update ((writeSession 1 2 [72] [87] [[65, 66]] 1700000000 [[9, 8, 7]]).stream.drop 52) 0
          = (parseFileHeader (writeSession 1 2 [72] [87] [[65, 66]] 1700000000 [[9, 8, 7]]).stream).Crc32)
    ∧ ∀ i, 52 ≤ i → i < (writeSession 1 2 [72] [87] [[65, 66]] 1700000000 [[9, 8, 7]]).stream.length →
        ∀ b, b < 256 →
          b ≠ (writeSession 1 2 [72] [87] [[65, 66]] 1700000000 [[9, 8, 7]]).stream.getD i 0 →
          CheckSanity ((writeSession 1 2 [72] [87] [[65, 66]] 1700000000 [[9, 8, 7]]).stream.set i b)
            = some checkSanityError) :=
  ⟨⟨by decide, by decide⟩,
    c1_crc_round_trip_and_tamper_rejection 1 2 1700000000 [72] [87] [[65, 66]] [[9, 8, 7]]
      (by decide) (by decide)⟩

/-! ## Claim C3: the file-header layout and the final CRC stamp -/

/-- A concrete header with a recognizable checksum, used to exhibit the actual
layout of `FileHeader`. -/
def c3Header : FileHeader :=
  { Version := hindsightVersionInt, ProcessId := 4660, ThreadId := 22136,
    PathLength := 0, WorkingDirectoryLength := 0, Arguments := 0,
    StartTime := 0, Crc32 := 3735928559 }

/-- **C3 (counterexample)**  The serialized file header is not 48 bytes and
its CRC field is not at offset 44: at `c3Header` the header serializes to 52
bytes, the four bytes at offset 44 do not read back as the stored checksum
(they are the upper half of `StartTime`), while the four bytes at offset 48
do. -/
theorem c3_counterexample :
    (serializeFileHeader c3Header).length ≠ 48
    ∧ readU32le (((serializeFileHeader c3Header).drop 44).take 4) ≠ c3Header.Crc32
    ∧ readU32le (((serializeFileHeader c3Header).drop 48).take 4) = c3Header.Crc32 := by
  decide

/-- **C3 (amended)**  The binary log file header is a fixed 52 bytes
(signature, version, process id, thread id, path length, working-directory
length, argument count, start time, crc32), and on clean shutdown the writer
stamps the header's CRC field last by seeking back to the start of the file
and rewriting the whole header, the CRC field lying at offset 48 of the file;
the bytes after the header are left untouched. -/
theorem c3_amended (s : WriterState) (hC : s.Header.Crc32 < 4294967296) :
    (serializeFileHeader s.Header).length = 52
    ∧ (WriterOnModuleCollectionComplete s).stream
        = serializeFileHeader s.Header ++ s.stream.drop 52
    ∧ readU32le ((((WriterOnModuleCollectionComplete s).stream).drop 48).take 4)
        = s.Header.Crc32 := by
  have h2 : (WriterOnModuleCollectionComplete s).stream
      = serializeFileHeader s.Header ++ s.stream.drop 52 := by
    unfold WriterOnModuleCollectionComplete overwriteAt
    simp only [List.take_zero, List.nil_append, Nat.zero_add, serializeFileHeader_length]
  refine ⟨serializeFileHeader_length _, h2, ?_⟩
  rw [h2, serializeFileHeader_drop48, List.take_left' (u32le_length _),
    readU32le_u32le_nil hC]

/-- Witness for `c3_amended` at a concrete writer state. -/
theorem c3_amended_witness :
    (({ stream := serializeFileHeader c3Header ++ [1, 2, 3],
        Header := c3Header } : WriterState).Header.Crc32 < 4294967296)
    ∧ ((serializeFileHeader c3Header).length = 52
      ∧ (WriterOnModuleCollectionComplete
          { stream := serializeFileHeader c3Header ++ [1, 2, 3], Header := c3Header }).stream
          = serializeFileHeader c3Header
            ++ ({ stream := serializeFileHeader c3Header ++ [1, 2, 3],
                  Header := c3Header } : WriterState).stream.drop 52
      ∧ readU32le ((((WriterOnModuleCollectionComplete
            { stream := serializeFileHeader c3Header ++ [1, 2, 3],
              Header := c3Header }).stream).drop 48).take 4)
          = ({ stream := serializeFileHeader c3Header ++ [1, 2, 3],
               Header := c3Header } : WriterState).Header.Crc32) :=
  ⟨by decide,
    c3_amended
      { stream := serializeFileHeader c3Header ++ [1, 2, 3], Header := c3Header }
      (by decide)⟩

/-! ## The stack-trace recursion collapser (`DebugStackTrace.cpp`, `Walk`)

`DebugStackTrace::Walk` repeatedly asks `StackWalk64` for the next frame; the
sequence of frames the platform walker would produce is the input list here.
Only the two address fields the collapser inspects are modelled; symbol and
line enrichment (`SymFromAddr`, `SymGetLineFromAddrW64`) fills other entry
fields and never touches `Recursion`/`RecursionCount`, so it is not modelled.
-/

/-- `SIZE_MAX` on the 64-bit target. -/
def SIZE_MAX : Nat := 18446744073709551615

/-- The two fields of a `STACKFRAME64` the recursion collapser reads:
`AddrPC.Offset` and `AddrReturn.Offset`. -/
structure STACKFRAME64 where
  AddrPCOffset : Nat
  AddrReturnOffset : Nat
deriving DecidableEq, Repr

/-- The fields of a `DebugStackTraceEntry` relevant to the collapser, with the
in-class initializers of `DebugStackTrace.hpp` as defaults (`Address =
nullptr`, `Recursion = false`, `RecursionCount = 0`). -/
structure DebugStackTraceEntry where
  Address : Nat
  Recursion : Bool
  RecursionCount : Nat
deriving DecidableEq, Repr

/-- `DebugStackTrace::AddFrame`: append one normal entry for the frame. -/
def AddFrame (trace : List DebugStackTraceEntry) (frame : STACKFRAME64) :
    List DebugStackTraceEntry :=
  trace ++ [{ Address := frame.AddrPCOffset, Recursion := false, RecursionCount := 0 }]

/-- `DebugStackTrace::AddRecursion`: append a recursion-marker entry (all
other fields default-initialized) whose `RecursionCount` is the backlog size,
then `AddFrame(backlog.back())`. -/
def AddRecursion (trace : List DebugStackTraceEntry)
    (backlog : List STACKFRAME64) : List DebugStackTraceEntry :=
  AddFrame
    (trace ++ [{ Address := 0, Recursion := true, RecursionCount := backlog.length }])
    (backlog.getLastD { AddrPCOffset := 0, AddrReturnOffset := 0 })

/-- The body of `DebugStackTrace::Walk`'s `for` loop, with the frames the
platform walker yields as input.  When `m_MaxRecursion != SIZE_MAX`: a frame
with `AddrPC.Offset == AddrReturn.Offset` is pushed onto the backlog and the
loop `continue`s; a non-recursive frame met with a non-empty backlog flushes
the backlog (collapsed if `backlog.size() >= m_MaxRecursion`, otherwise every
backlogged frame via `AddFrame`), clears it, and `continue`s — dropping the
current frame; otherwise the frame is added normally.  When the walker yields
no further frame the loop breaks, abandoning any leftover backlog. -/
def WalkLoop (maxRecursion : Nat) :
    List STACKFRAME64 → List STACKFRAME64 → List DebugStackTraceEntry →
    List DebugStackTraceEntry
  | [], _backlog, trace => trace
  | frame :: rest, backlog, trace =>
    if maxRecursion ≠ SIZE_MAX then
      if frame.AddrPCOffset = frame.AddrReturnOffset then
        WalkLoop maxRecursion rest (backlog ++ [frame]) trace
      else if backlog ≠ [] then
        if backlog.length ≥ maxRecursion then
          WalkLoop maxRecursion rest [] (AddRecursion trace backlog)
        else
          WalkLoop maxRecursion rest [] (backlog.foldl AddFrame trace)
      else
        WalkLoop maxRecursion rest backlog (AddFrame trace frame)
    else
      WalkLoop maxRecursion rest backlog (AddFrame trace frame)

/-- `DebugStackTrace::Walk`: run the loop with an empty backlog and trace. -/
def Walk (maxRecursion : Nat) (frames : List STACKFRAME64) :
    List DebugStackTraceEntry :=
  WalkLoop maxRecursion frames [] []

/-- `LaunchCommand` / `MortemCommand`: a configured `max_recursion` of `0`
means unlimited and is replaced by `SIZE_MAX` before any trace is built. -/
def normalizeMaxRecursion (r : Nat) : Nat := if r = 0 then SIZE_MAX else r

/-- A run of recursive frames (PC = return address) is accumulated into the
backlog without emitting anything. -/
theorem WalkLoop_replicate_recursive {r : STACKFRAME64}
    (hr : r.AddrPCOffset = r.AddrReturnOffset) {m : Nat} (hm : m ≠ SIZE_MAX)
    (k : Nat) (rest : List STACKFRAME64) (backlog : List STACKFRAME64)
    (trace : List DebugStackTraceEntry) :
    WalkLoop m (List.replicate k r ++ rest) backlog trace
      = WalkLoop m rest (backlog ++ List.replicate k r) trace := by
  induction k generalizing backlog with
  | zero => simp
  | succ n ih =>
    rw [List.replicate_succ, List.cons_append, WalkLoop, if_pos hm, if_pos hr, ih]
    rw [List.append_assoc]
    rfl

/-- With the limit disabled (`m_MaxRecursion == SIZE_MAX`) every frame is
added normally. -/
theorem WalkLoop_size_max (frames : List STACKFRAME64)
    (backlog : List STACKFRAME64) (trace : List DebugStackTraceEntry) :
    WalkLoop SIZE_MAX frames backlog trace
      = trace ++ frames.map (fun f =>
          { Address := f.AddrPCOffset, Recursion := false, RecursionCount := 0 }) := by
  induction frames generalizing trace with
  | nil => simp [WalkLoop]
  | cons f rest ih =>
    rw [WalkLoop, if_neg (by simp), ih]
    simp [AddFrame]

/-- **C6**  A stack trace built with a configured `max_recursion = 0` treats
the limit as unlimited and never collapses: for every sequence of frames the
platform walker yields, no entry of the trace is a recursion marker.  (The
launch and mortem commands replace `0` by `SIZE_MAX`, and `Walk` skips the
whole recursion-detection branch when `m_MaxRecursion == SIZE_MAX`.) -/
theorem c6_max_recursion_zero_never_collapses (frames : List STACKFRAME64) :
    (Walk (normalizeMaxRecursion 0) frames).filter (fun e => e.Recursion) = [] := by
  unfold normalizeMaxRecursion Walk
  rw [if_pos rfl, WalkLoop_size_max]
  simp

/-- **C2 (counterexample)**  Take one frame with `PC = ReturnAddr = 5`
followed by a distinct frame with `PC = 7 ≠ 8 = ReturnAddr`, and
`max_recursion = 1` (so `k = 1 ≥ m`).  The trace is the recursion marker
followed by the last backlogged frame only: the current (distinct) frame with
PC 7 is dropped by the `continue` after the backlog flush, never processed as
a normal frame of the trace. -/
theorem c2_counterexample :
    Walk 1 [⟨5, 5⟩, ⟨7, 8⟩]
      = [{ Address := 0, Recursion := true, RecursionCount := 1 },
         { Address := 5, Recursion := false, RecursionCount := 0 }]
    ∧ (Walk 1 [⟨5, 5⟩, ⟨7, 8⟩]).all (fun e => e.Address ≠ 7) = true := by
  decide

/-- Flushing a backlog through `AddFrame` appends one normal entry per frame. -/
theorem foldl_AddFrame (l : List STACKFRAME64) (trace : List DebugStackTraceEntry) :
    l.foldl AddFrame trace
      = trace ++ l.map (fun f =>
          { Address := f.AddrPCOffset, Recursion := false, RecursionCount := 0 }) := by
  induction l generalizing trace with
  | nil => simp
  | cons f rest ih =>
    rw [List.foldl_cons, ih]
    simp [AddFrame]

/-- **C2 (amended)**  For a stack walk in which the platform walker yields
`k ≥ 1` consecutive frames whose program counter equals their return address,
followed by one distinct frame, a trace built with `max_recursion = m`
(`m ≠ SIZE_MAX`, i.e. finite) emits exactly one recursion-marker entry with
`recursion_count = k` followed by one normal frame (the *last* backlogged
frame) iff `k ≥ m`, and otherwise emits the `k` backlogged frames normally;
in both cases the backlog is then cleared and the current (distinct) frame is
*dropped* — the `continue` after the flush skips its `AddFrame`, so it never
appears in the trace. -/
theorem c2_amended (r d : STACKFRAME64) (k m : Nat)
    (hr : r.AddrPCOffset = r.AddrReturnOffset)
    (hd : d.AddrPCOffset ≠ d.AddrReturnOffset)
    (hk : 1 ≤ k) (hm : m ≠ SIZE_MAX) :
    Walk m (List.replicate k r ++ [d])
      = if k ≥ m then
          [{ Address := 0, Recursion := true, RecursionCount := k },
           { Address := r.AddrPCOffset, Recursion := false, RecursionCount := 0 }]
        else
          List.replicate k
            { Address := r.AddrPCOffset, Recursion := false, RecursionCount := 0 } := by
  unfold Walk
  rw [WalkLoop_replicate_recursive hr hm, List.nil_append]
  have hne : List.replicate k r ≠ [] := by
    cases k with
    | zero => omega
    | succ n => simp
  rw [WalkLoop, if_pos hm, if_neg hd, if_pos hne, List.length_replicate]
  by_cases hkm : k ≥ m
  · rw [if_pos hkm, if_pos hkm]
    show AddRecursion [] (List.replicate k r) = _
    unfold AddRecursion AddFrame
    cases k with
    | zero => omega
    | succ n =>
      rw [List.replicate_succ', List.getLastD_concat]
      simp
  · rw [if_neg hkm, if_neg hkm]
    show List.foldl AddFrame [] (List.replicate k r) = _
    rw [foldl_AddFrame, List.map_replicate, List.nil_append]

/-- Witness for `c2_amended`: two recursive frames then a distinct one, with
`max_recursion = 1` (collapsing applies since `k = 2 ≥ 1`). -/
theorem c2_amended_witness :
    ((⟨5, 5⟩ : STACKFRAME64).AddrPCOffset = (⟨5, 5⟩ : STACKFRAME64).AddrReturnOffset
      ∧ (⟨7, 8⟩ : STACKFRAME64).AddrPCOffset ≠ (⟨7, 8⟩ : STACKFRAME64).AddrReturnOffset
      ∧ 1 ≤ 2 ∧ (1 : Nat) ≠ SIZE_MAX)
    ∧ Walk 1 (List.replicate 2 ⟨5, 5⟩ ++ [⟨7, 8⟩])
        = if 2 ≥ 1 then
            [{ Address := 0, Recursion := true, RecursionCount := 2 },
             { Address := 5, Recursion := false, RecursionCount := 0 }]
          else
            List.replicate 2
              { Address := 5, Recursion := false, RecursionCount := 0 } :=
  ⟨⟨by decide, by decide, by decide, by decide⟩,
    c2_amended ⟨5, 5⟩ ⟨7, 8⟩ 2 1 (by decide) (by decide) (by decide) (by decide)⟩

/-- **C5 (counterexample)**  One recursive frame (`PC = ReturnAddr = 5`) and
then the walker stops, with `max_recursion = 1`: the claim predicts the
leftover backlog is emitted as one recursion marker plus the backlogged
frame; the code emits nothing at all. -/
theorem c5_counterexample :
    Walk 1 [⟨5, 5⟩] = []
    ∧ Walk 1 [⟨5, 5⟩]
        ≠ [{ Address := 0, Recursion := true, RecursionCount := 1 },
           { Address := 5, Recursion := false, RecursionCount := 0 }] := by
  decide

/-- **C5 (amended)**  If the platform stack walker stops producing frames
while the recursion backlog is non-empty, the stack-trace builder *discards*
the leftover backlog: the loop breaks without emitting anything for it, so a
walk consisting only of recursive frames produces an empty trace (for any
finite `max_recursion`). -/
theorem c5_amended (r : STACKFRAME64) (k m : Nat)
    (hr : r.AddrPCOffset = r.AddrReturnOffset) (hm : m ≠ SIZE_MAX) :
    Walk m (List.replicate k r) = [] := by
  unfold Walk
  rw [show List.replicate k r = List.replicate k r ++ [] by simp,
    WalkLoop_replicate_recursive hr hm]
  rfl

/-- Witness for `c5_amended`: three recursive frames, `max_recursion = 2`. -/
theorem c5_amended_witness :
    ((⟨5, 5⟩ : STACKFRAME64).AddrPCOffset = (⟨5, 5⟩ : STACKFRAME64).AddrReturnOffset
      ∧ (2 : Nat) ≠ SIZE_MAX)
    ∧ Walk 2 (List.replicate 3 ⟨5, 5⟩) = [] :=
  ⟨⟨by decide, by decide⟩, c5_amended ⟨5, 5⟩ 3 2 (by decide) (by decide)⟩

/-! ## The module index (`ModuleCollection.cpp`)

Module paths (`std::wstring`) are lists of UTF-16 code units.  The `std::map`
members are association lists; `m_ModuleMap` (keyed by base address) is kept
sorted by key on insertion because `GetModuleAtAddress` iterates it in key
order.  The other maps are only ever looked up by key, so their entry order is
unobservable. -/

structure Module where
  Base : Nat
  Size : Nat
  Path : List Nat
deriving DecidableEq, Repr

/-- `Module::ContainsAddress`: `addr >= Base && addr < (uint8_t*)Base + Size`. -/
def Module.ContainsAddress (m : Module) (addr : Nat) : Bool :=
  decide (m.Base ≤ addr) && decide (addr < m.Base + m.Size)

/-- Insert into an association list sorted by `Nat` key (a `std::map`). -/
def mapInsertSorted (l : List (Nat × Module)) (k : Nat) (v : Module) :
    List (Nat × Module) :=
  match l with
  | [] => [(k, v)]
  | (k', v') :: t =>
    if k < k' then (k, v) :: (k', v') :: t else (k', v') :: mapInsertSorted t k v

/-- `std::map::try_emplace`: insert only when the key is absent. -/
def mapTryEmplace (l : List (Nat × Module)) (k : Nat) (v : Module) :
    List (Nat × Module) :=
  if (l.lookup k).isSome then l else mapInsertSorted l k v

structure ModuleCollection where
  m_Modules : List (List Nat)
  m_ModuleIndexMap : List (List Nat × Nat)
  m_ModuleMap : List (Nat × Module)
  m_ModuleHandleMap : List (List Nat × List Nat)
deriving DecidableEq, Repr

def ModuleCollection.empty : ModuleCollection := ⟨[], [], [], []⟩

/-- `ModuleCollection::Contains`: `m_ModuleIndexMap.count(path) != 0`. -/
def ModuleCollection.Contains (c : ModuleCollection) (path : List Nat) : Bool :=
  (c.m_ModuleIndexMap.lookup path).isSome

/-- `ModuleCollection::Active(ModulePointer)`: `m_ModuleMap.count(base)`. -/
def ModuleCollection.ActiveBase (c : ModuleCollection) (base : Nat) : Bool :=
  (c.m_ModuleMap.lookup base).isSome

/-- `ModuleCollection::Active(const std::wstring&)`. -/
def ModuleCollection.ActivePath (c : ModuleCollection) (path : List Nat) : Bool :=
  match c.m_ModuleHandleMap.lookup path with
  | some s => !s.isEmpty
  | none => false

/-- `m_ModuleHandleMap[path].insert(base)`. -/
def handleMapInsert (l : List (List Nat × List Nat)) (path : List Nat) (base : Nat) :
    List (List Nat × List Nat) :=
  match l with
  | [] => [(path, [base])]
  | (p, s) :: t =>
    if p = path then (p, if base ∈ s then s else s ++ [base]) :: t
    else (p, s) :: handleMapInsert t path base

/-- `m_ModuleHandleMap.at(path).erase(base)`. -/
def handleMapErase (l : List (List Nat × List Nat)) (path : List Nat) (base : Nat) :
    List (List Nat × List Nat) :=
  l.map (fun e => if e.1 = path then (e.1, e.2.filter (fun b => b ≠ base)) else e)

/-- `ModuleCollection::Load(path, moduleHandle, size)`: record a first-seen
path with the next index, then `try_emplace` the module and add the base to
the path's handle set. -/
def ModuleCollection.Load (c : ModuleCollection) (path : List Nat)
    (base size : Nat) : ModuleCollection :=
  let c1 :=
    if c.Contains path then c
    else
      { c with
        m_Modules := c.m_Modules ++ [path]
        m_ModuleIndexMap := c.m_ModuleIndexMap ++ [(path, c.m_Modules.length)] }
  { c1 with
    m_ModuleMap := mapTryEmplace c1.m_ModuleMap base { Base := base, Size := size, Path := path }
    m_ModuleHandleMap := handleMapInsert c1.m_ModuleHandleMap path base }

/-- `ModuleCollection::Unload(moduleHandle)`: if the base is active, erase it
from the path's handle set and from the base map; the first-seen sequence and
index map are left alone. -/
def ModuleCollection.Unload (c : ModuleCollection) (base : Nat) : ModuleCollection :=
  if !c.ActiveBase base then c
  else
    match c.m_ModuleMap.lookup base with
    | none => c
    | some m =>
      { c with
        m_ModuleHandleMap := handleMapErase c.m_ModuleHandleMap m.Path base
        m_ModuleMap := c.m_ModuleMap.filter (fun p => p.1 ≠ base) }

/-- `ModuleCollection::Get(moduleHandle)`: the module path, or `L""` when the
base is not active. -/
def ModuleCollection.Get (c : ModuleCollection) (base : Nat) : List Nat :=
  match c.m_ModuleMap.lookup base with
  | some m => m.Path
  | none => []

/-- `ModuleCollection::GetIndex(const std::wstring&)`: the first-seen index,
or `-1` when the path was never loaded. -/
def ModuleCollection.GetIndex (c : ModuleCollection) (path : List Nat) : Int :=
  if c.Contains path then Int.ofNat ((c.m_ModuleIndexMap.lookup path).getD 0)
  else -1

/-- `ModuleCollection::GetModuleAtAddress`: first active module containing
the address, in base-address order. -/
def ModuleCollection.GetModuleAtAddress (c : ModuleCollection) (addr : Nat) :
    Option Module :=
  (c.m_ModuleMap.find? (fun p => p.2.ContainsAddress addr)).map (fun p => p.2)

/-- Erasing a key from an association list makes its lookup fail. -/
theorem lookup_filter_ne (l : List (Nat × Module)) (b : Nat) :
    (l.filter (fun p => p.1 ≠ b)).lookup b = none := by
  induction l with
  | nil => rfl
  | cons e t ih =>
    by_cases h : e.1 = b
    · simpa [List.filter, h] using ih
    · simp only [List.filter]
      rw [show (decide ¬(e.1 = b)) = true by simp [h]]
      simpa [List.lookup, beq_eq_false_iff_ne.mpr (Ne.symm h)] using ih

/-! ## Claim C8: UnloadDll fan-out happens before the index removal -/

/-- One `OnDllUnload` sink invocation: the arguments the handler receives
that the claim is about (`path`, `moduleIndex`, and the module collection
reference passed along). -/
structure DllUnloadSinkCall where
  path : List Nat
  moduleIndex : Int
  collection : ModuleCollection

/-- `Debugger::Tick`, `UNLOAD_DLL_DEBUG_EVENT` case: resolve the path, invoke
every handler with `(fullPath, GetIndex(fullPath), m_LoadedModules)`, then
`m_LoadedModules.Unload(base)`. -/
def TickUnloadDll (col : ModuleCollection) (base : Nat) (handlerCount : Nat) :
    List DllUnloadSinkCall × ModuleCollection :=
  let fullPath := col.Get base
  (List.replicate handlerCount
    { path := fullPath, moduleIndex := col.GetIndex fullPath, collection := col },
   col.Unload base)

/-- `BinaryLogPlayer::EmitDllUnload`: when not filtering, or when
`unload_dll` is in the filter, resolve the path and invoke every handler;
afterwards — in every case — unload the base from the local collection. -/
def PlayerEmitDllUnload (col : ModuleCollection) (base : Nat)
    (shouldFilter : Bool) (filter : List String) (handlerCount : Nat) :
    List DllUnloadSinkCall × ModuleCollection :=
  let calls :=
    if !shouldFilter || (shouldFilter && filter.contains "unload_dll") then
      let path := col.Get base
      List.replicate handlerCount
        { path := path, moduleIndex := col.GetIndex path, collection := col }
    else []
  (calls, col.Unload base)

/-- **C8**  For every `UnloadDll` event, in both the live event pump
(`Debugger::Tick`) and the replayer (`EmitDllUnload`), every sink is invoked
before the module is removed from the module index: each delivered call
carries the unloaded module's path and first-seen index, and the collection
the sink sees still resolves the base address; the module is removed from the
active set only in the collection produced after the fan-out, which still
answers the same first-seen index for the path.  When the replay filter
admits `unload_dll` (or no filter is active) the replayer also delivers one
call per handler. -/
theorem c8_unload_fanout_before_removal (col : ModuleCollection) (base : Nat)
    (M : Module) (n : Nat) (shouldFilter : Bool) (filter : List String)
    (hM : col.m_ModuleMap.lookup base = some M)
    (hallow : shouldFilter = false ∨ filter.contains "unload_dll" = true) :
    (∀ call ∈ (TickUnloadDll col base n).1,
        call.path = M.Path
        ∧ call.moduleIndex = col.GetIndex M.Path
        ∧ call.collection.Get base = M.Path
        ∧ call.collection.ActiveBase base = true)
    ∧ (TickUnloadDll col base n).2.ActiveBase base = false
    ∧ (TickUnloadDll col base n).2.GetIndex M.Path = col.GetIndex M.Path
    ∧ (∀ call ∈ (PlayerEmitDllUnload col base shouldFilter filter n).1,
        call.path = M.Path
        ∧ call.moduleIndex = col.GetIndex M.Path
        ∧ call.collection.Get base = M.Path
        ∧ call.collection.ActiveBase base = true)
    ∧ (PlayerEmitDllUnload col base shouldFilter filter n).2.ActiveBase base = false
    ∧ (PlayerEmitDllUnload col base shouldFilter filter n).1.length = n := by
  have hactive : col.ActiveBase base = true := by
    simp [ModuleCollection.ActiveBase, hM]
  have hget : col.Get base = M.Path := by
    simp [ModuleCollection.Get, hM]
  have hUnloadEq : col.Unload base
      = { col with
          m_ModuleHandleMap := handleMapErase col.m_ModuleHandleMap M.Path base
          m_ModuleMap := col.m_ModuleMap.filter (fun p => p.1 ≠ base) } := by
    unfold ModuleCollection.Unload
    rw [hactive, hM]
    rfl
  have hunload : (col.Unload base).ActiveBase base = false := by
    rw [hUnloadEq]
    show ((col.m_ModuleMap.filter (fun p => p.1 ≠ base)).lookup base).isSome = false
    rw [lookup_filter_ne]
    rfl
  have hunloadIdx : (col.Unload base).GetIndex M.Path = col.GetIndex M.Path := by
    rw [hUnloadEq]
    rfl
  have hcond : (!shouldFilter || (shouldFilter && filter.contains "unload_dll")) = true := by
    rcases hallow with h | h
    · rw [h]; rfl
    · cases shouldFilter
      · rfl
      · simp only [Bool.not_true, Bool.false_or, Bool.true_and]
        exact h
  have hcalls : (PlayerEmitDllUnload col base shouldFilter filter n).1
      = List.replicate n
          { path := col.Get base, moduleIndex := col.GetIndex (col.Get base),
            collection := col } := by
    unfold PlayerEmitDllUnload
    rw [if_pos hcond]
  refine ⟨?_, hunload, hunloadIdx, ?_, hunload, ?_⟩
  · intro call hcall
    rw [List.eq_of_mem_replicate hcall]
    exact ⟨hget, by rw [hget], hget, hactive⟩
  · intro call hcall
    rw [hcalls] at hcall
    rw [List.eq_of_mem_replicate hcall]
    exact ⟨hget, by rw [hget], hget, hactive⟩
  · rw [hcalls, List.length_replicate]

/-- Witness for `c8_unload_fanout_before_removal`: a one-module collection,
two handlers, no filter. -/
theorem c8_unload_fanout_before_removal_witness :
    ((ModuleCollection.empty.Load [107] 4096 256).m_ModuleMap.lookup 4096
        = some { Base := 4096, Size := 256, Path := [107] }
      ∧ (false = false ∨ ([] : List String).contains "unload_dll" = true))
    ∧ ((∀ call ∈ (TickUnloadDll (ModuleCollection.empty.Load [107] 4096 256) 4096 2).1,
        call.path = ({ Base := 4096, Size := 256, Path := [107] } : Module).Path
        ∧ call.moduleIndex = (ModuleCollection.empty.Load [107] 4096 256).GetIndex
            ({ Base := 4096, Size := 256, Path := [107] } : Module).Path
        ∧ call.collection.Get 4096 = ({ Base := 4096, Size := 256, Path := [107] } : Module).Path
        ∧ call.collection.ActiveBase 4096 = true)
    ∧ (TickUnloadDll (ModuleCollection.empty.Load [107] 4096 256) 4096 2).2.ActiveBase 4096 = false
    ∧ (TickUnloadDll (ModuleCollection.empty.Load [107] 4096 256) 4096 2).2.GetIndex
        ({ Base := 4096, Size := 256, Path := [107] } : Module).Path
        = (ModuleCollection.empty.Load [107] 4096 256).GetIndex
            ({ Base := 4096, Size := 256, Path := [107] } : Module).Path
    ∧ (∀ call ∈ (PlayerEmitDllUnload (ModuleCollection.empty.Load [107] 4096 256) 4096 false [] 2).1,
        call.path = ({ Base := 4096, Size := 256, Path := [107] } : Module).Path
        ∧ call.moduleIndex = (ModuleCollection.empty.Load [107] 4096 256).GetIndex
            ({ Base := 4096, Size := 256, Path := [107] } : Module).Path
        ∧ call.collection.Get 4096 = ({ Base := 4096, Size := 256, Path := [107] } : Module).Path
        ∧ call.collection.ActiveBase 4096 = true)
    ∧ (PlayerEmitDllUnload (ModuleCollection.empty.Load [107] 4096 256) 4096 false [] 2).2.ActiveBase 4096 = false
    ∧ (PlayerEmitDllUnload (ModuleCollection.empty.Load [107] 4096 256) 4096 false [] 2).1.length = 2) :=
  ⟨⟨by decide, Or.inl rfl⟩,
    c8_unload_fanout_before_removal (ModuleCollection.empty.Load [107] 4096 256) 4096
      { Base := 4096, Size := 256, Path := [107] } 2 false [] (by decide) (Or.inl rfl)⟩

/-! ## Claim C10: stack-trace entries without a module record index 0 -/

/-- The `module_index` expression of the stack-trace entry writer
(`WriterDebuggerEventHandler::Write(trace, collection)`):
`entry.Module.Base != 0 && !entry.Module.Path.empty()
  ? collection.GetIndex(entry.Module.Path) : 0`. -/
def stackTraceEntryModuleIndex (moduleBase : Nat) (modulePath : List Nat)
    (col : ModuleCollection) : Int :=
  if moduleBase ≠ 0 ∧ modulePath ≠ [] then col.GetIndex modulePath else 0

/-- The `ModuleIndex` the writer records for a `CreateThread` event
(`OnCreateThread`): the owning module's index, or `-1` when no module
contains the address. -/
def createThreadEntryModuleIndex (col : ModuleCollection) (address : Nat) : Int :=
  match col.GetModuleAtAddress address with
  | some m => col.GetIndex m.Path
  | none => -1

/-- A collection whose first-seen module (index 0) is `[107]` at base 4096. -/
def c10Collection : ModuleCollection := ModuleCollection.empty.Load [107] 4096 256

/-- **C10**  For every stack-trace entry whose frame has no resolved owning
module (null module base or empty module path), the writer records
`module_index = 0` — the index of the first-seen module — rather than a
distinguished absent value such as the `-1` used elsewhere (e.g. by the
`CreateThread` writer): a moduleless entry and an entry genuinely owned by
module 0 record the same `module_index`. -/
theorem c10_moduleless_entry_records_zero (col : ModuleCollection)
    (moduleBase : Nat) (modulePath : List Nat)
    (h : moduleBase = 0 ∨ modulePath = []) :
    stackTraceEntryModuleIndex moduleBase modulePath col = 0
    ∧ stackTraceEntryModuleIndex 0 [] c10Collection
        = stackTraceEntryModuleIndex 4096 [107] c10Collection
    ∧ c10Collection.GetIndex [107] = 0
    ∧ createThreadEntryModuleIndex c10Collection 999999 = -1 := by
  refine ⟨?_, by decide, by decide, by decide⟩
  unfold stackTraceEntryModuleIndex
  rcases h with h | h <;> simp [h]

/-- Witness for `c10_moduleless_entry_records_zero`: a frame with a non-null
base but an empty path. -/
theorem c10_moduleless_entry_records_zero_witness :
    ((8192 : Nat) = 0 ∨ ([] : List Nat) = [])
    ∧ (stackTraceEntryModuleIndex 8192 [] c10Collection = 0
      ∧ stackTraceEntryModuleIndex 0 [] c10Collection
          = stackTraceEntryModuleIndex 4096 [107] c10Collection
      ∧ c10Collection.GetIndex [107] = 0
      ∧ createThreadEntryModuleIndex c10Collection 999999 = -1) :=
  ⟨Or.inr rfl,
    c10_moduleless_entry_records_zero c10Collection 8192 [] (Or.inr rfl)⟩

/-! ## Claim C7: the wow64 byte and the context block variant -/

/-- The registers of a 64-bit `CONTEXT` that the trace seeding reads. -/
structure CONTEXT where
  Rip : Nat
  Rbp : Nat
  Rsp : Nat
deriving DecidableEq, Repr

/-- The registers of a `WOW64_CONTEXT` that the trace seeding reads. -/
structure WOW64_CONTEXT where
  Eip : Nat
  Ebp : Nat
  Esp : Nat
deriving DecidableEq, Repr

/-- `DebugContext`: a tagged 32- or 64-bit thread-context snapshot.  The
constructors set `IsWow64` consistently with the stored union variant. -/
inductive DebugContext where
  | x64 (ctx : CONTEXT)
  | x86 (ctx : WOW64_CONTEXT)
deriving DecidableEq, Repr

/-- `DebugContext::Is64`. -/
def DebugContext.Is64 : DebugContext → Bool
  | .x64 _ => true
  | .x86 _ => false

/-- `DebugContext::Get64` (reading the wrong union member yields garbage;
the callers guard with `Is64`). -/
def DebugContext.Get64 : DebugContext → CONTEXT
  | .x64 c => c
  | .x86 _ => { Rip := 0, Rbp := 0, Rsp := 0 }

/-- `DebugContext::Get86`. -/
def DebugContext.Get86 : DebugContext → WOW64_CONTEXT
  | .x86 c => c
  | .x64 _ => { Eip := 0, Ebp := 0, Esp := 0 }

/-- The context block written right after the fixed exception entry: either a
`CONTEXT` or a `WOW64_CONTEXT` struct. -/
inductive ContextBlock where
  | block64 (ctx : CONTEXT)
  | block32 (ctx : WOW64_CONTEXT)
deriving DecidableEq, Repr

/-- `WriterDebuggerEventHandler::Write(std::shared_ptr<const DebugContext>)`:
`if (context->Is64()) Write(context->Get64()); else Write(context->Get86());`. -/
def WriterWriteContext (context : DebugContext) : ContextBlock :=
  if context.Is64 then ContextBlock.block64 context.Get64
  else ContextBlock.block32 context.Get86

/-- The fields of `ExceptionEventEntry` (`BinaryLogFile.hpp`). -/
structure ExceptionEventEntry where
  EventAddress : Nat
  EventOffset : Nat
  ModuleIndex : Int
  EventCode : Nat
  Wow64 : Nat
  IsBreakpoint : Nat
  IsFirstChance : Nat
deriving DecidableEq, Repr

/-- `WriterDebuggerEventHandler::Write(info, pi, context, trace, collection,
isBreak)`: build the `ExceptionEventEntry` with `Wow64 = !context->Is64()`,
resolve the module at the exception address (index `-1` when unresolvable),
then write the entry followed by the context block (and then the trace, not
relevant here). -/
def WriterWriteExceptionEvent (addr code : Nat) (firstChance : Bool)
    (context : DebugContext) (collection : ModuleCollection) (isBreak : Bool) :
    ExceptionEventEntry × ContextBlock :=
  let event0 : ExceptionEventEntry :=
    { EventAddress := addr, EventOffset := 0, ModuleIndex := 0, EventCode := code,
      Wow64 := if !context.Is64 then 1 else 0,
      IsBreakpoint := if isBreak then 1 else 0,
      IsFirstChance := if firstChance then 1 else 0 }
  let event :=
    match collection.GetModuleAtAddress addr with
    | some m =>
      { event0 with ModuleIndex := collection.GetIndex m.Path,
                    EventOffset := addr - m.Base }
    | none => { event0 with ModuleIndex := -1, EventOffset := 0 }
  (event, WriterWriteContext context)

/-- `BinaryLogPlayer::EmitException` reads a `WOW64_CONTEXT` iff
`frame.Wow64` is nonzero (`if (frame.Wow64) Read(ctx32); else Read(ctx64);`). -/
def EmitExceptionReads32BitContext (frame : ExceptionEventEntry) : Bool :=
  frame.Wow64 != 0

/-- **C7**  For every exception event written to the binary log, the `wow64`
byte equals 1 iff the context block written immediately after the fixed
exception entry is the 32-bit register set (`WOW64_CONTEXT` rather than the
64-bit `CONTEXT`); correspondingly, on replay a 32-bit context is read iff
the stored `wow64` byte is nonzero, so replay reads a 32-bit context exactly
for the events whose written block is 32-bit. -/
theorem c7_wow64_byte_matches_context_block (addr code : Nat)
    (firstChance isBreak : Bool) (context : DebugContext)
    (collection : ModuleCollection) :
    ((WriterWriteExceptionEvent addr code firstChance context collection isBreak).1.Wow64 = 1
      ↔ ∃ c, (WriterWriteExceptionEvent addr code firstChance context collection isBreak).2
          = ContextBlock.block32 c)
    ∧ (EmitExceptionReads32BitContext
        (WriterWriteExceptionEvent addr code firstChance context collection isBreak).1 = true
      ↔ ∃ c, (WriterWriteExceptionEvent addr code firstChance context collection isBreak).2
          = ContextBlock.block32 c) := by
  unfold WriterWriteExceptionEvent WriterWriteContext EmitExceptionReads32BitContext
  cases context <;>
    cases h : collection.GetModuleAtAddress addr <;>
      simp [DebugContext.Is64, h]

/-! ## The MSVC RTTI decoder (`ExceptionRtti.cpp`)

The decoder reads the debuggee through the target-process facade
(`Process::Read`, `Process::ReadNulTerminatedString`) and demangles the
decorated type name through the platform (`std::type_info::name()`).  Both are
external to the core and are modelled as oracle parameters: a `RemoteProcess`
record of read functions (a failed read is `none`; a failed or empty string
read is `""`) and an `undecorate` function.  Only the struct fields the
decoder actually uses are modelled. -/

structure ThrowInfo where
  attributes : Nat
  pmfnUnwind : Nat
  pForwardCompat : Nat
  pCatchableTypeArray : Nat
deriving DecidableEq, Repr

structure CatchableType where
  properties : Nat
  pType : Nat
  mdisp : Nat
  pdisp : Nat
  vdisp : Nat
  sizeOrOffset : Nat
  copyFunction : Nat
deriving DecidableEq, Repr

structure TypeDescriptor where
  pVFTable : Nat
  spare : Nat
deriving DecidableEq, Repr

/-- The remote-read primitives `ExceptionRtti.cpp` uses:
`Read(addr, ThrowInfo)`, `Read(addr, int)` (array size, and the 32-bit
`what()` pointer), the bulk read of the catchable-type array (`n` entries),
`Read(addr, CatchableType)`, `Read(addr, TypeDescriptor)`,
`ReadNulTerminatedString(addr, limit)` (`""` on failure) and the 64-bit
pointer read for `what()`. -/
structure RemoteProcess where
  readThrowInfo : Nat → Option ThrowInfo
  readInt : Nat → Option Nat
  readTypeArray : Nat → Nat → Option (List Nat)
  readCatchableType : Nat → Option CatchableType
  readTypeDescriptor : Nat → Option TypeDescriptor
  readNulTerminatedString : Nat → Nat → String
  readPointer : Nat → Option Nat

/-- `EHParameters64`: `{ magic, exception_object*, ThrowInfo64*, image_base* }`. -/
structure EHParameters64 where
  magicNumber : Nat
  pExceptionObject : Nat
  pThrowInfo : Nat
  pThrowImageBase : Nat
deriving DecidableEq, Repr

/-- `EHParameters32`: `{ magic, exception_object*, ThrowInfo32* }`. -/
structure EHParameters32 where
  magicNumber : Nat
  pExceptionObject : Nat
  pThrowInfo : Nat
deriving DecidableEq, Repr

/-- `EHParameters64::rva_to_va`: image base plus 32-bit image-relative offset. -/
def rvaToVa (imageBase offset : Nat) : Nat := imageBase + offset

/-- `Hindsight::Utilities::String::Contains(in, find)`. -/
def containsSubstring (haystack needle : String) : Bool :=
  decide (needle.toList <:+: haystack.toList)

/-- The constant `std_exception = "std::exception"` of `ExceptionRtti.hpp`. -/
def stdException : String := "std::exception"

/-- The result fields of `ExceptionRunTimeTypeInformation`. -/
structure RttiResult where
  ExceptionTypeNames : List String
  ExceptionMessage : Option String
  ThrowImagePath : Option (List Nat)
deriving DecidableEq, Repr

/-- Accumulator of the catchable-type loop: the collected demangled names
(`m_ExceptionTypeNames`), the `containsStdException` flag, and whether the
loop ran to completion (no early `return`). -/
structure ProcessTypesState where
  names : List String
  containsStdException : Bool
  completed : Bool
deriving DecidableEq, Repr

/-- The `for (i < typeArraySize)` loop of `Process64` / `Process32` over the
catchable-type references.  `resolve` is `rva_to_va(imageBase, ·)` in the
64-bit decoder and the identity (absolute 32-bit VAs) in the 32-bit one;
`nameOffset` is `offsetof(TypeDescriptor{64,32}, name)` (16 resp. 8).  Any
null address, failed read or empty decorated name aborts the loop, keeping
the names appended so far. -/
def processCatchableTypes (proc : RemoteProcess) (undecorate : String → String)
    (resolve : Nat → Nat) (nameOffset : Nat) :
    List Nat → ProcessTypesState → ProcessTypesState
  | [], st => { st with completed := true }
  | rva :: rest, st =>
    let catchableTypeAddress := resolve rva
    if catchableTypeAddress = 0 then st
    else
      match proc.readCatchableType catchableTypeAddress with
      | none => st
      | some catchableType =>
        let typeDescriptorAddress := resolve catchableType.pType
        let typeNameAddress := resolve (catchableType.pType + nameOffset)
        if typeDescriptorAddress = 0 ∨ typeNameAddress = 0 then st
        else
          match proc.readTypeDescriptor typeDescriptorAddress with
          | none => st
          | some _ =>
            let decoratedName := proc.readNulTerminatedString typeNameAddress 0
            if decoratedName = "" then st
            else
              let demangled := undecorate decoratedName
              processCatchableTypes proc undecorate resolve nameOffset rest
                { names := st.names ++ [demangled]
                  containsStdException :=
                    st.containsStdException || containsSubstring demangled stdException
                  completed := st.completed }

/-- The `what()` extraction of `Process64`: read the exception object's
second word (a 64-bit pointer at offset 8), require it non-null, read a
NUL-terminated string capped at 1024 bytes, require it non-empty. -/
def extractWhatMessage64 (proc : RemoteProcess) (pExceptionObject : Nat) :
    Option String :=
  match proc.readPointer (pExceptionObject + 8) with
  | none => none
  | some what =>
    if what ≠ 0 then
      let message := proc.readNulTerminatedString what 1024
      if message ≠ "" then some message else none
    else none

/-- The `what()` extraction of `Process32`: a 32-bit `int` read at offset 4. -/
def extractWhatMessage32 (proc : RemoteProcess) (pExceptionObject : Nat) :
    Option String :=
  match proc.readInt (pExceptionObject + 4) with
  | none => none
  | some what =>
    if what ≠ 0 then
      let message := proc.readNulTerminatedString what 1024
      if message ≠ "" then some message else none
    else none

/-- `ExceptionRunTimeTypeInformation::Process64`. -/
def Process64 (proc : RemoteProcess) (undecorate : String → String)
    (modules : ModuleCollection) (params : EHParameters64) : RttiResult :=
  let throwImagePath :=
    (modules.GetModuleAtAddress params.pThrowInfo).map (fun m => m.Path)
  if params.pThrowInfo = 0 then
    { ExceptionTypeNames := [], ExceptionMessage := none, ThrowImagePath := throwImagePath }
  else
    match proc.readThrowInfo params.pThrowInfo with
    | none =>
      { ExceptionTypeNames := [], ExceptionMessage := none, ThrowImagePath := throwImagePath }
    | some throwInfo =>
      let typeArrayAddress := rvaToVa params.pThrowImageBase throwInfo.pCatchableTypeArray
      if typeArrayAddress = 0 then
        { ExceptionTypeNames := [], ExceptionMessage := none, ThrowImagePath := throwImagePath }
      else
        match proc.readInt typeArrayAddress with
        | none =>
          { ExceptionTypeNames := [], ExceptionMessage := none, ThrowImagePath := throwImagePath }
        | some typeArraySize =>
          match proc.readTypeArray typeArrayAddress typeArraySize with
          | none =>
            { ExceptionTypeNames := [], ExceptionMessage := none, ThrowImagePath := throwImagePath }
          | some rvas =>
            let st := processCatchableTypes proc undecorate
              (rvaToVa params.pThrowImageBase) 16 rvas
              { names := [], containsStdException := false, completed := false }
            { ExceptionTypeNames := st.names
              ExceptionMessage :=
                if st.completed && st.containsStdException then
                  extractWhatMessage64 proc params.pExceptionObject
                else none
              ThrowImagePath := throwImagePath }

/-- `ExceptionRunTimeTypeInformation::Process32`: absolute 32-bit VAs instead
of image-relative offsets, `offsetof(TypeDescriptor32, name) = 8`, and the
`what()` pointer read as an `int` at offset 4. -/
def Process32 (proc : RemoteProcess) (undecorate : String → String)
    (modules : ModuleCollection) (params : EHParameters32) : RttiResult :=
  let throwImagePath :=
    (modules.GetModuleAtAddress params.pThrowInfo).map (fun m => m.Path)
  if params.pThrowInfo = 0 then
    { ExceptionTypeNames := [], ExceptionMessage := none, ThrowImagePath := throwImagePath }
  else
    match proc.readThrowInfo params.pThrowInfo with
    | none =>
      { ExceptionTypeNames := [], ExceptionMessage := none, ThrowImagePath := throwImagePath }
    | some throwInfo =>
      let typeArrayAddress := throwInfo.pCatchableTypeArray
      if typeArrayAddress = 0 then
        { ExceptionTypeNames := [], ExceptionMessage := none, ThrowImagePath := throwImagePath }
      else
        match proc.readInt typeArrayAddress with
        | none =>
          { ExceptionTypeNames := [], ExceptionMessage := none, ThrowImagePath := throwImagePath }
        | some typeArraySize =>
          match proc.readTypeArray typeArrayAddress typeArraySize with
          | none =>
            { ExceptionTypeNames := [], ExceptionMessage := none, ThrowImagePath := throwImagePath }
          | some vas =>
            let st := processCatchableTypes proc undecorate
              (fun va => va) 8 vas
              { names := [], containsStdException := false, completed := false }
            { ExceptionTypeNames := st.names
              ExceptionMessage :=
                if st.completed && st.containsStdException then
                  extractWhatMessage32 proc params.pExceptionObject
                else none
              ThrowImagePath := throwImagePath }

/-- The `containsStdException` flag is exactly "some collected name contains
`"std::exception"`". -/
theorem processCatchableTypes_contains_iff (proc : RemoteProcess)
    (undecorate : String → String) (resolve : Nat → Nat) (nameOffset : Nat)
    (rvas : List Nat) (st : ProcessTypesState)
    (hinv : st.containsStdException = true
      ↔ ∃ nm ∈ st.names, containsSubstring nm stdException = true) :
    (processCatchableTypes proc undecorate resolve nameOffset rvas st).containsStdException = true
      ↔ ∃ nm ∈ (processCatchableTypes proc undecorate resolve nameOffset rvas st).names,
          containsSubstring nm stdException = true := by
  induction rvas generalizing st with
  | nil => simpa [processCatchableTypes] using hinv
  | cons rva rest ih =>
    rw [processCatchableTypes]
    split
    · exact hinv
    · cases hct : proc.readCatchableType (resolve rva) with
      | none => exact hinv
      | some catchableType =>
        simp only
        split
        · exact hinv
        · cases htd : proc.readTypeDescriptor (resolve catchableType.pType) with
          | none => exact hinv
          | some _ =>
            simp only
            split
            · exact hinv
            · apply ih
              constructor
              · intro hor
                rcases Bool.or_eq_true_iff.mp hor with h | h
                · obtain ⟨nm, hmem, hnm⟩ := hinv.mp h
                  exact ⟨nm, List.mem_append.mpr (Or.inl hmem), hnm⟩
                · exact ⟨_, List.mem_append.mpr (Or.inr (List.mem_singleton_self _)), h⟩
              · rintro ⟨nm, hmem, hnm⟩
                rcases List.mem_append.mp hmem with h | h
                · exact Bool.or_eq_true_iff.mpr (Or.inl (hinv.mpr ⟨nm, h, hnm⟩))
                · rw [List.mem_singleton.mp h] at hnm
                  exact Bool.or_eq_true_iff.mpr (Or.inr hnm)

theorem extractWhatMessage64_isSome_iff (proc : RemoteProcess) (obj : Nat) :
    (extractWhatMessage64 proc obj).isSome = true
      ↔ ∃ w, proc.readPointer (obj + 8) = some w ∧ w ≠ 0
          ∧ proc.readNulTerminatedString w 1024 ≠ "" := by
  unfold extractWhatMessage64
  cases hp : proc.readPointer (obj + 8) with
  | none => simp
  | some what =>
    simp only [Option.some.injEq]
    constructor
    · intro h
      refine ⟨what, rfl, ?_, ?_⟩ <;> revert h <;>
        by_cases h0 : what = 0 <;>
          by_cases hmsg : proc.readNulTerminatedString what 1024 = "" <;>
            simp [h0, hmsg]
    · rintro ⟨w, hw, h0, hmsg⟩
      cases hw
      simp [h0, hmsg]

theorem extractWhatMessage32_isSome_iff (proc : RemoteProcess) (obj : Nat) :
    (extractWhatMessage32 proc obj).isSome = true
      ↔ ∃ w, proc.readInt (obj + 4) = some w ∧ w ≠ 0
          ∧ proc.readNulTerminatedString w 1024 ≠ "" := by
  unfold extractWhatMessage32
  cases hp : proc.readInt (obj + 4) with
  | none => simp
  | some what =>
    simp only [Option.some.injEq]
    constructor
    · intro h
      refine ⟨what, rfl, ?_, ?_⟩ <;> revert h <;>
        by_cases h0 : what = 0 <;>
          by_cases hmsg : proc.readNulTerminatedString what 1024 = "" <;>
            simp [h0, hmsg]
    · rintro ⟨w, hw, h0, hmsg⟩
      cases hw
      simp [h0, hmsg]

theorem Process64_message_iff
    (proc : RemoteProcess) (undecorate : String → String)
    (modules : ModuleCollection) (p : EHParameters64)
    (ti : ThrowInfo) (n : Nat) (rvas : List Nat)
    (h1 : p.pThrowInfo ≠ 0)
    (h2 : proc.readThrowInfo p.pThrowInfo = some ti)
    (h3 : rvaToVa p.pThrowImageBase ti.pCatchableTypeArray ≠ 0)
    (h4 : proc.readInt (rvaToVa p.pThrowImageBase ti.pCatchableTypeArray) = some n)
    (h5 : proc.readTypeArray (rvaToVa p.pThrowImageBase ti.pCatchableTypeArray) n = some rvas) :
    (Process64 proc undecorate modules p).ExceptionMessage.isSome = true
      ↔ ((processCatchableTypes proc undecorate (rvaToVa p.pThrowImageBase) 16 rvas
            { names := [], containsStdException := false, completed := false }).completed = true
        ∧ (∃ nm ∈ (Process64 proc undecorate modules p).ExceptionTypeNames,
            containsSubstring nm stdException = true)
        ∧ ∃ w, proc.readPointer (p.pExceptionObject + 8) = some w ∧ w ≠ 0
            ∧ proc.readNulTerminatedString w 1024 ≠ "") := by
  have hiff := processCatchableTypes_contains_iff proc undecorate
    (rvaToVa p.pThrowImageBase) 16 rvas
    { names := [], containsStdException := false, completed := false } (by simp)
  simp only [Process64, h2, h4, h5, if_neg h1, if_neg h3]
  cases hcm : (processCatchableTypes proc undecorate (rvaToVa p.pThrowImageBase) 16 rvas
      { names := [], containsStdException := false, completed := false }).completed with
  | false => simp
  | true =>
    cases hcs : (processCatchableTypes proc undecorate (rvaToVa p.pThrowImageBase) 16 rvas
        { names := [], containsStdException := false, completed := false }).containsStdException with
    | false =>
      rw [hcs] at hiff
      have hnone : ¬ ∃ nm ∈ (processCatchableTypes proc undecorate
          (rvaToVa p.pThrowImageBase) 16 rvas
          { names := [], containsStdException := false, completed := false }).names,
            containsSubstring nm stdException = true := by
        intro hex
        simpa using hiff.mpr hex
      simp [hnone]
    | true =>
      rw [hcs] at hiff
      have hex := hiff.mp rfl
      simp [hex, extractWhatMessage64_isSome_iff]

theorem Process32_message_iff
    (proc : RemoteProcess) (undecorate : String → String)
    (modules : ModuleCollection) (p : EHParameters32)
    (ti : ThrowInfo) (n : Nat) (vas : List Nat)
    (h1 : p.pThrowInfo ≠ 0)
    (h2 : proc.readThrowInfo p.pThrowInfo = some ti)
    (h3 : ti.pCatchableTypeArray ≠ 0)
    (h4 : proc.readInt ti.pCatchableTypeArray = some n)
    (h5 : proc.readTypeArray ti.pCatchableTypeArray n = some vas) :
    (Process32 proc undecorate modules p).ExceptionMessage.isSome = true
      ↔ ((processCatchableTypes proc undecorate (fun va => va) 8 vas
            { names := [], containsStdException := false, completed := false }).completed = true
        ∧ (∃ nm ∈ (Process32 proc undecorate modules p).ExceptionTypeNames,
            containsSubstring nm stdException = true)
        ∧ ∃ w, proc.readInt (p.pExceptionObject + 4) = some w ∧ w ≠ 0
            ∧ proc.readNulTerminatedString w 1024 ≠ "") := by
  have hiff := processCatchableTypes_contains_iff proc undecorate
    (fun va => va) 8 vas
    { names := [], containsStdException := false, completed := false } (by simp)
  simp only [Process32, h2, h4, h5, if_neg h1, if_neg h3]
  cases hcm : (processCatchableTypes proc undecorate (fun va => va) 8 vas
      { names := [], containsStdException := false, completed := false }).completed with
  | false => simp
  | true =>
    cases hcs : (processCatchableTypes proc undecorate (fun va => va) 8 vas
        { names := [], containsStdException := false, completed := false }).containsStdException with
    | false =>
      rw [hcs] at hiff
      have hnone : ¬ ∃ nm ∈ (processCatchableTypes proc undecorate
          (fun va => va) 8 vas
          { names := [], containsStdException := false, completed := false }).names,
            containsSubstring nm stdException = true := by
        intro hex
        simpa using hiff.mpr hex
      simp [hnone]
    | true =>
      rw [hcs] at hiff
      have hex := hiff.mp rfl
      simp [hex, extractWhatMessage32_isSome_iff]

/-- The MSVC demangler oracle used in concrete evaluations: it maps the one
decorated name occurring there to its demangled form. -/
def c9undecorate : String → String :=
  fun s => if s = ".?AVexception@std@@" then "class std::exception" else s

/-- A concrete debuggee memory: a 64-bit throw at `ThrowInfo*` 2000 (image
base 1000, catchable-type array RVA 100, two entries of which the second is
unreadable) and a 32-bit throw at `ThrowInfo*` 6000 (absolute VAs, one
readable entry); both exception objects carry a readable `what()` string. -/
def c9proc : RemoteProcess where
  readThrowInfo a :=
    if a = 2000 then some ⟨0, 0, 0, 100⟩
    else if a = 6000 then some ⟨0, 0, 0, 7000⟩ else none
  readInt a :=
    if a = 1100 then some 2
    else if a = 7000 then some 1
    else if a = 5004 then some 8000 else none
  readTypeArray a n :=
    if a = 1100 ∧ n = 2 then some [10, 20]
    else if a = 7000 ∧ n = 1 then some [7100] else none
  readCatchableType a :=
    if a = 1010 then some ⟨0, 50, 0, 0, 0, 0, 0⟩
    else if a = 7100 then some ⟨0, 7200, 0, 0, 0, 0, 0⟩ else none
  readTypeDescriptor a :=
    if a = 1050 ∨ a = 7200 then some ⟨0, 0⟩ else none
  readNulTerminatedString a _ :=
    if a = 1066 ∨ a = 7208 then ".?AVexception@std@@"
    else if a = 4000 then "boom"
    else if a = 8000 then "boom32" else ""
  readPointer a := if a = 3008 then some 4000 else none

/-- C9 counterexample: in a 64-bit decode whose first catchable type
demangles to a name containing "std::exception" but whose second
catchable-type read fails, the collected chain contains the name and the
exception object's second word resolves to the non-empty string "boom", yet
no exception message is stored, because the early `return` inside the loop
skips the post-loop message block entirely.  The claim's iff therefore fails
in the right-to-left direction. -/
theorem c9_counterexample :
    (Process64 c9proc c9undecorate ModuleCollection.empty
        ⟨429065504, 3000, 2000, 1000⟩).ExceptionMessage = none
    ∧ (∃ nm ∈ (Process64 c9proc c9undecorate ModuleCollection.empty
        ⟨429065504, 3000, 2000, 1000⟩).ExceptionTypeNames,
          containsSubstring nm stdException = true)
    ∧ c9proc.readPointer (3000 + 8) = some 4000 ∧ (4000 : Nat) ≠ 0
    ∧ c9proc.readNulTerminatedString 4000 1024 ≠ "" := by
  refine ⟨?_, ⟨"class std::exception", ?_, ?_⟩, ?_, ?_, ?_⟩ <;> decide

/-- C9 (amended): in both the 64-bit and the 32-bit decoder, once the
pre-loop reads succeed, an exception message is stored iff the
catchable-type loop ran to COMPLETION (the original claim omits this), some
collected demangled type name contains "std::exception", and the pointer
read from the exception object's second word (offset 8 via a 64-bit pointer
read, offset 4 via an `int` read) is non-null and yields a non-empty
NUL-terminated string capped at 1024 bytes. -/
theorem c9_message_requires_completed_walk
    (proc : RemoteProcess) (undecorate : String → String)
    (modules : ModuleCollection) (p64 : EHParameters64) (p32 : EHParameters32)
    (ti64 : ThrowInfo) (n64 : Nat) (rvas : List Nat)
    (ti32 : ThrowInfo) (n32 : Nat) (vas : List Nat)
    (h164 : p64.pThrowInfo ≠ 0)
    (h264 : proc.readThrowInfo p64.pThrowInfo = some ti64)
    (h364 : rvaToVa p64.pThrowImageBase ti64.pCatchableTypeArray ≠ 0)
    (h464 : proc.readInt (rvaToVa p64.pThrowImageBase ti64.pCatchableTypeArray) = some n64)
    (h564 : proc.readTypeArray (rvaToVa p64.pThrowImageBase ti64.pCatchableTypeArray) n64 = some rvas)
    (h132 : p32.pThrowInfo ≠ 0)
    (h232 : proc.readThrowInfo p32.pThrowInfo = some ti32)
    (h332 : ti32.pCatchableTypeArray ≠ 0)
    (h432 : proc.readInt ti32.pCatchableTypeArray = some n32)
    (h532 : proc.readTypeArray ti32.pCatchableTypeArray n32 = some vas) :
    ((Process64 proc undecorate modules p64).ExceptionMessage.isSome = true
      ↔ ((processCatchableTypes proc undecorate (rvaToVa p64.pThrowImageBase) 16 rvas
            { names := [], containsStdException := false, completed := false }).completed = true
        ∧ (∃ nm ∈ (Process64 proc undecorate modules p64).ExceptionTypeNames,
            containsSubstring nm stdException = true)
        ∧ ∃ w, proc.readPointer (p64.pExceptionObject + 8) = some w ∧ w ≠ 0
            ∧ proc.readNulTerminatedString w 1024 ≠ ""))
    ∧ ((Process32 proc undecorate modules p32).ExceptionMessage.isSome = true
      ↔ ((processCatchableTypes proc undecorate (fun va => va) 8 vas
            { names := [], containsStdException := false, completed := false }).completed = true
        ∧ (∃ nm ∈ (Process32 proc undecorate modules p32).ExceptionTypeNames,
            containsSubstring nm stdException = true)
        ∧ ∃ w, proc.readInt (p32.pExceptionObject + 4) = some w ∧ w ≠ 0
            ∧ proc.readNulTerminatedString w 1024 ≠ "")) :=
  ⟨Process64_message_iff proc undecorate modules p64 ti64 n64 rvas h164 h264 h364 h464 h564,
   Process32_message_iff proc undecorate modules p32 ti32 n32 vas h132 h232 h332 h432 h532⟩

/-- Witness: on the concrete memory `c9proc`, the 32-bit decode completes its
single-entry loop, collects "class std::exception" and resolves the `what()`
string "boom32"; the amended iff applied right-to-left yields a stored
message. -/
theorem c9_message_requires_completed_walk_witness :
    (Process32 c9proc c9undecorate ModuleCollection.empty
        ⟨429065504, 5000, 6000⟩).ExceptionMessage.isSome = true := by
  have h := c9_message_requires_completed_walk c9proc c9undecorate ModuleCollection.empty
    ⟨429065504, 3000, 2000, 1000⟩ ⟨429065504, 5000, 6000⟩
    ⟨0, 0, 0, 100⟩ 2 [10, 20] ⟨0, 0, 0, 7000⟩ 1 [7100]
    (by decide) (by decide) (by decide) (by decide) (by decide)
    (by decide) (by decide) (by decide) (by decide) (by decide)
  exact h.2.mpr ⟨by decide, ⟨"class std::exception", by decide, by decide⟩,
    8000, by decide, by decide, by decide⟩

/-! ## The full replayer (`BinaryLogPlayer::Play` / `Next` / the emitters)

The player streams a log file through `Read(buffer, size, updateChecksum)`,
which asserts enough bytes are left, consumes them and (by default) folds
them into `m_Crc32`.  The state is the unread remainder of the file, the
accumulated checksum and the simulated module collection.  Sink fan-out is
modelled as one broadcast event per emission (every registered handler
receives it); the interactive `--break-*` pausing and the Win32 message
formatting of `EmitRip` carry no data from the file and are not modelled. -/

/-- The replay-time filter keys of `m_Filter` (`--replay-filter` tags). -/
inductive FilterTag where
  | breakpoint
  | exception
  | create_process
  | create_thread
  | exit_process
  | exit_thread
  | load_dll
  | unload_dll
  | debug
  | rip
deriving DecidableEq, Repr

/-- The player options the emitters consult: `m_State.NoSanityCheck`,
`m_ShouldFilter`, and `m_Filter.count(tag)`. -/
structure PlayerConfig where
  noSanityCheck : Bool
  shouldFilter : Bool
  filterAllows : FilterTag → Bool

/-- The mutable player: the unread rest of the stream, `m_Crc32` and
`m_Modules`. -/
structure PlayerState where
  rem : List Nat
  crc : Nat
  modules : ModuleCollection
deriving Repr

/-- One handler broadcast, carrying the data the handlers receive from the
file. -/
inductive SinkEvent where
  | onInitialization (startTime pid tid : Nat) (path wdir : List Nat)
      (args : List (List Nat))
  | onBreakpointHit (time addr code : Nat)
  | onException (time addr code : Nat) (firstChance : Bool)
  | onCreateProcess (time : Nat) (path : List Nat) (base size : Nat)
  | onCreateThread (time entryPoint : Nat)
  | onExitProcess (time exitCode : Nat)
  | onExitThread (time exitCode : Nat)
  | onDllLoad (time : Nat) (path : List Nat) (index : Int) (base size : Nat)
  | onDllUnload (time base : Nat) (path : List Nat) (index : Int)
  | onDebugStringA (time : Nat) (message : List Nat)
  | onDebugStringW (time : Nat) (message : List Nat)
  | onRip (time error typ : Nat)
  | onModuleCollectionComplete
deriving DecidableEq, Repr

/-- The `AssertSizeLeft` failure message. -/
def playerEndError : String :=
  "unexpected end of binary log file, expected more data."

/-- The `Next` signature-mismatch message. -/
def frameError : String :=
  "unexpected frame in binary log file, expected event entry."

/-- The `Next` unknown-event message. -/
def frameTypeError (id : Nat) : String :=
  "unexpected event frame type: " ++ toString id

/-- The `EmitException` missing-trace message. -/
def stackTraceError : String :=
  "stack trace expected, binary log file damaged"

/-- The message of the unconditional check at the very end of `Play`. -/
def finalCrcError : String :=
  "not all data that was originally written has been read."

/-- The constructor's version-mismatch message (`hindsight_version_int >> 16`
is `6`, so `requiredMajor = 0` and `requiredMinor = 6`). -/
def versionError : String :=
  "cannot open file, the version used to generate this log differs from the used version. Hindsight 0.6 is required."

/-- `Read(char*, size, updateChecksum)`: `AssertSizeLeft(size)`, consume
`size` bytes, optionally fold them into the checksum. -/
def readBytes (st : PlayerState) (n : Nat) (updateChecksum : Bool) :
    Except String (List Nat × PlayerState) :=
  if st.rem.length < n then .error playerEndError
  else .ok (st.rem.take n,
    { st with
      rem := st.rem.drop n
      crc := if updateChecksum then Crc32Update (st.rem.take n) st.crc else st.crc })

/-- A `Read(..., false)` immediately followed by `seekg` back: the bytes are
inspected but neither consumed nor checksummed. -/
def peekBytes (st : PlayerState) (n : Nat) : Except String (List Nat) :=
  if st.rem.length < n then .error playerEndError
  else .ok (st.rem.take n)

/-- `_strnicmp(sig, expected, 4) == 0`: case-insensitive byte comparison. -/
def toLowerByte (b : Nat) : Nat := if 65 ≤ b ∧ b ≤ 90 then b + 32 else b

def signatureMatches (sig expected : List Nat) : Bool :=
  sig.map toLowerByte == expected.map toLowerByte

/-- One `Read(std::string, -1)` of `Read(std::vector<std::string>&, count)`:
a `uint32_t` length, then that many bytes, both checksummed. -/
def readArgument (st : PlayerState) : Except String (List Nat × PlayerState) := do
  let (lenBytes, st) ← readBytes st 4 true
  let (strBytes, st) ← readBytes st (readU32le lenBytes) true
  .ok (strBytes, st)

def readArguments : Nat → PlayerState → Except String (List (List Nat) × PlayerState)
  | 0, st => .ok ([], st)
  | n + 1, st => do
    let (a, st) ← readArgument st
    let (rest, st) ← readArguments n st
    .ok (a :: rest, st)

/-- One decoded instruction of a trace entry: the 41-byte packed
`StackTraceEntryInstruction` (`HexSize` at offset 17, `MnemonicSize` at 25,
`OperandsSize` at 33), then the three ANSI strings. -/
def readInstruction (st : PlayerState) : Except String PlayerState := do
  let (ibytes, st) ← readBytes st 41 true
  let (_, st) ← readBytes st (readU64le ((ibytes.drop 17).take 8)) true
  let (_, st) ← readBytes st (readU64le ((ibytes.drop 25).take 8)) true
  let (_, st) ← readBytes st (readU64le ((ibytes.drop 33).take 8)) true
  .ok st

def readInstructions : Nat → PlayerState → Except String PlayerState
  | 0, st => .ok st
  | n + 1, st => do
    readInstructions n (← readInstruction st)

/-- One trace entry: the 89-byte packed `StackTraceEntry`
(`NameSymbolLength` at offset 48, `PathLength` at 56, `InstructionCount` at
81), the symbol name (ANSI), the source path (UTF-16, `PathLength`
characters), then the decoded instructions. -/
def readTraceEntry (st : PlayerState) : Except String PlayerState := do
  let (ebytes, st) ← readBytes st 89 true
  let (_, st) ← readBytes st (readU64le ((ebytes.drop 48).take 8)) true
  let (_, st) ← readBytes st (readU64le ((ebytes.drop 56).take 8) * 2) true
  readInstructions (readU64le ((ebytes.drop 81).take 8)) st

def readTraceEntries : Nat → PlayerState → Except String PlayerState
  | 0, st => .ok st
  | n + 1, st => do
    readTraceEntries n (← readTraceEntry st)

/-- `BinaryLogPlayer::EmitException` on the 79-byte `ExceptionEventEntry`
(`EventAddress` at offset 48, `EventCode` at 72, `Wow64` at 76,
`IsBreakpoint` at 77, `IsFirstChance` at 78): read the appropriately sized
CPU context (`sizeof(WOW64_CONTEXT) = 716`, `sizeof(CONTEXT) = 1232`), check
the `STCK` signature, read the 28-byte `StackTrace` header
(`TraceEntries` at offset 20) and all its entries, then broadcast unless
filtered out. -/
def EmitException (cfg : PlayerConfig) (time : Nat) (frame : List Nat)
    (st : PlayerState) : Except String (List SinkEvent × PlayerState) := do
  let wow64 := frame.getD 76 0
  let isBreakpoint := frame.getD 77 0
  let isFirstChance := frame.getD 78 0
  let eventAddress := readU64le ((frame.drop 48).take 8)
  let eventCode := readU32le ((frame.drop 72).take 4)
  let (_, st) ← readBytes st (if wow64 != 0 then 716 else 1232) true
  let sig ← peekBytes st 4
  if signatureMatches sig [83, 84, 67, 75] = false then
    .error stackTraceError
  else do
    let (hdrBytes, st) ← readBytes st 28 true
    let st ← readTraceEntries (readU64le ((hdrBytes.drop 20).take 8)) st
    if cfg.shouldFilter
        && (((isBreakpoint != 0) && !cfg.filterAllows .breakpoint)
          || ((isBreakpoint == 0) && !cfg.filterAllows .exception)) then
      .ok ([], st)
    else if isBreakpoint != 0 then
      .ok ([SinkEvent.onBreakpointHit time eventAddress eventCode], st)
    else
      .ok ([SinkEvent.onException time eventAddress eventCode (isFirstChance != 0)], st)

/-- `EmitCreateProcess` on the 72-byte entry (`PathLength` at 48,
`ModuleBase` at 56, `ModuleSize` at 64): read the process path, simulate the
module load, then broadcast unless filtered out. -/
def EmitCreateProcess (cfg : PlayerConfig) (time : Nat) (frame : List Nat)
    (st : PlayerState) : Except String (List SinkEvent × PlayerState) := do
  let moduleBase := readU64le ((frame.drop 56).take 8)
  let moduleSize := readU64le ((frame.drop 64).take 8)
  let (pathBytes, st) ← readBytes st (readU64le ((frame.drop 48).take 8) * 2) true
  let path := parseWideString pathBytes
  let st := { st with modules := st.modules.Load path moduleBase moduleSize }
  if cfg.shouldFilter && !cfg.filterAllows .create_process then
    .ok ([], st)
  else
    .ok ([SinkEvent.onCreateProcess time path moduleBase moduleSize], st)

/-- `EmitCreateThread` on the 72-byte entry (`EntryPointAddress` at 48). -/
def EmitCreateThread (cfg : PlayerConfig) (time : Nat) (frame : List Nat)
    (st : PlayerState) : Except String (List SinkEvent × PlayerState) :=
  if cfg.shouldFilter && !cfg.filterAllows .create_thread then
    .ok ([], st)
  else
    .ok ([SinkEvent.onCreateThread time (readU64le ((frame.drop 48).take 8))], st)

/-- `EmitExitProcess` on the 52-byte entry (`ExitCode` at 48). -/
def EmitExitProcess (cfg : PlayerConfig) (time : Nat) (frame : List Nat)
    (st : PlayerState) : Except String (List SinkEvent × PlayerState) :=
  if cfg.shouldFilter && !cfg.filterAllows .exit_process then
    .ok ([], st)
  else
    .ok ([SinkEvent.onExitProcess time (readU32le ((frame.drop 48).take 4))], st)

/-- `EmitExitThread` on the 52-byte entry (`ExitCode` at 48). -/
def EmitExitThread (cfg : PlayerConfig) (time : Nat) (frame : List Nat)
    (st : PlayerState) : Except String (List SinkEvent × PlayerState) :=
  if cfg.shouldFilter && !cfg.filterAllows .exit_thread then
    .ok ([], st)
  else
    .ok ([SinkEvent.onExitThread time (readU32le ((frame.drop 48).take 4))], st)

/-- `EmitDllLoad` on the 80-byte entry (`ModuleIndex` at 48, `ModuleBase` at
56, `ModuleSize` at 64, `ModulePathSize` at 72): read the module path
(`ModulePathSize` UTF-16 characters), simulate the load, then broadcast the
path together with `m_Modules.GetIndex(path)` unless filtered out. -/
def EmitDllLoad (cfg : PlayerConfig) (time : Nat) (frame : List Nat)
    (st : PlayerState) : Except String (List SinkEvent × PlayerState) := do
  let moduleBase := readU64le ((frame.drop 56).take 8)
  let moduleSize := readU64le ((frame.drop 64).take 8)
  let (pathBytes, st) ← readBytes st (readU64le ((frame.drop 72).take 8) * 2) true
  let path := parseWideString pathBytes
  let st := { st with modules := st.modules.Load path moduleBase moduleSize }
  if cfg.shouldFilter && !cfg.filterAllows .load_dll then
    .ok ([], st)
  else
    .ok ([SinkEvent.onDllLoad time path (st.modules.GetIndex path) moduleBase moduleSize], st)

/-- `EmitDebugString` on the 57-byte entry (`IsUnicode` at 48, `Length` at
49): the message is read (and checksummed) before the filter check. -/
def EmitDebugString (cfg : PlayerConfig) (time : Nat) (frame : List Nat)
    (st : PlayerState) : Except String (List SinkEvent × PlayerState) := do
  let isUnicode := frame.getD 48 0
  let length := readU64le ((frame.drop 49).take 8)
  if isUnicode != 0 then do
    let (msgBytes, st) ← readBytes st (length * 2) true
    if cfg.shouldFilter && !cfg.filterAllows .debug then
      .ok ([], st)
    else
      .ok ([SinkEvent.onDebugStringW time (parseWideString msgBytes)], st)
  else do
    let (msgBytes, st) ← readBytes st length true
    if cfg.shouldFilter && !cfg.filterAllows .debug then
      .ok ([], st)
    else
      .ok ([SinkEvent.onDebugStringA time msgBytes], st)

/-- `EmitRip` on the 56-byte entry (`Type` at 48, `Error` at 52). -/
def EmitRip (cfg : PlayerConfig) (time : Nat) (frame : List Nat)
    (st : PlayerState) : Except String (List SinkEvent × PlayerState) :=
  if cfg.shouldFilter && !cfg.filterAllows .rip then
    .ok ([], st)
  else
    .ok ([SinkEvent.onRip time (readU32le ((frame.drop 52).take 4))
      (readU32le ((frame.drop 48).take 4))], st)

/-- `EmitDllUnload` on the 56-byte entry (`ModuleBase` at 48): fan out with
the still-resolvable path and index, then `Unload` unconditionally. -/
def EmitDllUnload (cfg : PlayerConfig) (time : Nat) (frame : List Nat)
    (st : PlayerState) : Except String (List SinkEvent × PlayerState) :=
  let moduleBase := readU64le ((frame.drop 48).take 8)
  let evts :=
    if !cfg.shouldFilter || (cfg.shouldFilter && cfg.filterAllows .unload_dll) then
      let path := st.modules.Get moduleBase
      [SinkEvent.onDllUnload time moduleBase path (st.modules.GetIndex path)]
    else []
  .ok (evts, { st with modules := st.modules.Unload moduleBase })

/-- `BinaryLogPlayer::Next`: stop when fewer than 4 bytes are left, verify
the `EVNT` signature, peek at the 48-byte `EventEntry` (`Time` at offset 4,
`EventId` at 12), then read the full entry for the event's type (checksummed)
and emit it.  Returns `none` when the stream is exhausted. -/
def Next (cfg : PlayerConfig) (st : PlayerState) :
    Except String (Option (List SinkEvent × PlayerState)) :=
  if st.rem.length < 4 then .ok none
  else if signatureMatches (st.rem.take 4) [69, 86, 78, 84] = false then
    .error frameError
  else
    match peekBytes st 48 with
    | .error e => .error e
    | .ok e =>
      let time := readU64le ((e.drop 4).take 8)
      let dispatch := fun (size : Nat)
          (emitter : PlayerConfig → Nat → List Nat → PlayerState →
            Except String (List SinkEvent × PlayerState)) => do
        let (frame, st) ← readBytes st size true
        let (evts, st) ← emitter cfg time frame st
        Except.ok (some (evts, st))
      match readU32le ((e.drop 12).take 4) with
      | 1 => dispatch 79 EmitException
      | 2 => dispatch 72 EmitCreateThread
      | 3 => dispatch 72 EmitCreateProcess
      | 4 => dispatch 52 EmitExitThread
      | 5 => dispatch 52 EmitExitProcess
      | 6 => dispatch 80 EmitDllLoad
      | 7 => dispatch 56 EmitDllUnload
      | 8 => dispatch 57 EmitDebugString
      | 9 => dispatch 56 EmitRip
      | id => .error (frameTypeError id)

/-- The `while (Next());` loop, with an explicit fuel.  Every successful
`Next` consumes at least the 52-byte smallest event entry, so with fuel
exceeding the remaining length the zero-fuel case is never reached.  The
events broadcast before an exception escapes the loop are kept: the sinks
already received them. -/
def PlayLoop (cfg : PlayerConfig) :
    Nat → PlayerState → List SinkEvent → List SinkEvent × Except String PlayerState
  | 0, st, acc => (acc, Except.ok st)
  | fuel + 1, st, acc =>
    match Next cfg st with
    | .error e => (acc, .error e)
    | .ok none => (acc, Except.ok st)
    | .ok (some (evts, st')) => PlayLoop cfg fuel st' (acc ++ evts)

/-- The `BinaryLogPlayer` constructor: read the 52-byte header without
checksumming, compare `Version >> 16` against `hindsight_version_int >> 16`,
then run `CheckSanity` unless `--no-sanity-check` was given. -/
def OpenPlayer (noSanityCheck : Bool) (file : List Nat) :
    Except String PlayerState :=
  if file.length < 52 then .error playerEndError
  else if (parseFileHeader file).Version / 65536 ≠ hindsightVersionInt / 65536 then
    .error versionError
  else if !noSanityCheck then
    match CheckSanity file with
    | some e => .error e
    | none => .ok { rem := file.drop 52, crc := 0, modules := ModuleCollection.empty }
  else .ok { rem := file.drop 52, crc := 0, modules := ModuleCollection.empty }

/-- `BinaryLogPlayer::Play`: open, read the debuggee path, working directory
and arguments, broadcast `OnInitialization`, drain the event stream, then
broadcast `OnModuleCollectionComplete` — and *unconditionally* compare the
accumulated `m_Crc32` against the header checksum, throwing the
not-all-data error on mismatch.  The result is the list of events the sinks
received together with the error, if one escaped. -/
def Play (cfg : PlayerConfig) (file : List Nat) : List SinkEvent × Option String :=
  match OpenPlayer cfg.noSanityCheck file with
  | .error e => ([], some e)
  | .ok st =>
    let hdr := parseFileHeader file
    match readBytes st (hdr.PathLength * 2) true with
    | .error e => ([], some e)
    | .ok (pathBytes, st) =>
      match readBytes st (hdr.WorkingDirectoryLength * 2) true with
      | .error e => ([], some e)
      | .ok (wdirBytes, st) =>
        match readArguments hdr.Arguments st with
        | .error e => ([], some e)
        | .ok (args, st) =>
          let initEvt := SinkEvent.onInitialization hdr.StartTime hdr.ProcessId
            hdr.ThreadId (parseWideString pathBytes) (parseWideString wdirBytes) args
          match PlayLoop cfg (st.rem.length + 1) st [] with
          | (evts, .error e) => (initEvt :: evts, some e)
          | (evts, .ok st) =>
            (initEvt :: (evts ++ [SinkEvent.onModuleCollectionComplete]),
             if hdr.Crc32 ≠ st.crc then some finalCrcError else none)

/-! The writer side of the two event records used to exercise `Play`: the
48-byte `EventEntry` base (`EventEntry(pi, eventId, sizeof(Entry))` with the
packed layout signature/time/id/size/pi) and the `OnDllLoad` /
`OnExitProcess` payloads. -/

/-- The packed 48-byte `EventEntry` base struct as written by `Write(T)`. -/
def serializeEventEntry (time eventId size hProcess hThread pid tid : Nat) :
    List Nat :=
  [69, 86, 78, 84] ++ u64le time ++ u32le eventId ++ u64le size
    ++ u64le hProcess ++ u64le hThread ++ u32le pid ++ u32le tid

/-- `OnDllLoad`: a `DllLoadEventEntry` (id `LOAD_DLL_DEBUG_EVENT = 6`,
`sizeof = 80`) followed by `Write(path)`. -/
def serializeDllLoadEvent (time hProcess hThread pid tid : Nat) (index : Int)
    (base msize : Nat) (path : List Nat) : List Nat :=
  serializeEventEntry time 6 80 hProcess hThread pid tid
    ++ i64le index ++ u64le base ++ u64le msize ++ u64le path.length
    ++ wstringBytes path

/-- `OnExitProcess`: an `ExitProcessEventEntry` (id `EXIT_PROCESS_DEBUG_EVENT
= 5`, `sizeof = 52`). -/
def serializeExitProcessEvent (time hProcess hThread pid tid exitCode : Nat) :
    List Nat :=
  serializeEventEntry time 5 52 hProcess hThread pid tid ++ u32le exitCode

/-! A concrete recorded session for exercising `Play`: pid 1, tid 2, debuggee
path `"H"`, working directory `"W"`, no arguments, one `LoadDll` of
`"C:\k.dll"` at base 4096 (size 512) and one `ExitProcess(0)`.  The file is
204 bytes; the DLL path occupies bytes 136–151, so byte 151 is the last byte
of the `LoadDll` path. -/

def c4DllPath : List Nat := [67, 58, 92, 107, 46, 100, 108, 108]

def c4Chunks : List (List Nat) :=
  [serializeDllLoadEvent 1700000100 0 0 1 2 0 4096 512 c4DllPath,
   serializeExitProcessEvent 1700000200 0 0 1 2 0]

def c4File : List Nat :=
  (writeSession 1 2 [72] [87] [] 1700000000 c4Chunks).stream

/-- A player with no replay filter and the given `--no-sanity-check` flag. -/
def c4Config (noSanity : Bool) : PlayerConfig :=
  { noSanityCheck := noSanity, shouldFilter := false, filterAllows := fun _ => false }

def c4Header : FileHeader := finalHeader 1 2 [72] [87] [] 1700000000 c4Chunks

def c4Body : List Nat := sessionBody [72] [87] [] c4Chunks

def c4BodyPre : List Nat := c4Body.take 99

def c4BodySuf : List Nat := c4Body.drop 100

/-- The 80-byte `DllLoadEventEntry` of the session, without the appended
path. -/
def c4DllEntryBytes : List Nat :=
  serializeEventEntry 1700000100 6 80 0 0 1 2
    ++ i64le 0 ++ u64le 4096 ++ u64le 512 ++ u64le 8

/-- The 16 path bytes of the `LoadDll` record with the last byte replaced. -/
def c4PathBytes (b : Nat) : List Nat :=
  [67, 0, 58, 0, 92, 0, 107, 0, 46, 0, 100, 0, 108, 0, 108, b]

/-- The 52-byte `ExitProcessEventEntry` record of the session. -/
def c4ExitBytes : List Nat := serializeExitProcessEvent 1700000200 0 0 1 2 0

/-- The checksum `Play` accumulates over the tampered file, chunk by chunk in
read order: debuggee path, working directory, `DllLoadEventEntry`, module
path (tampered), `ExitProcessEventEntry`. -/
def c4TamperedCrc (b : Nat) : Nat :=
  Crc32Update c4ExitBytes
    (Crc32Update (c4PathBytes b)
      (Crc32Update c4DllEntryBytes
        (Crc32Update [87, 0] (Crc32Update [72, 0] 0))))

/-- Loading a path into the empty collection gives it first-seen index 0. -/
theorem GetIndex_load_empty (p : List Nat) (base size : Nat) :
    (ModuleCollection.empty.Load p base size).GetIndex p = 0 := by
  unfold ModuleCollection.Load ModuleCollection.GetIndex ModuleCollection.Contains
    ModuleCollection.empty mapTryEmplace handleMapInsert
  simp [List.lookup]

def c4T (b : Nat) : List Nat := c4File.set 151 b

def c4TPath (b : Nat) : List Nat := [67, 58, 92, 107, 46, 100, 108, 108 + 256 * b]

set_option maxRecDepth 2000 in
theorem c4_body_chunks (b : Nat) :
    (c4T b).drop 52
      = [72, 0] ++ ([87, 0] ++ (c4DllEntryBytes ++ (c4PathBytes b ++ c4ExitBytes))) := rfl

theorem readBytes_ok (st : PlayerState) (n : Nat) (u : Bool)
    (h : ¬ st.rem.length < n) :
    readBytes st n u = .ok (st.rem.take n,
      { st with rem := st.rem.drop n,
                crc := if u then Crc32Update (st.rem.take n) st.crc else st.crc }) := by
  unfold readBytes; rw [if_neg h]

theorem peekBytes_ok (st : PlayerState) (n : Nat) (h : ¬ st.rem.length < n) :
    peekBytes st n = .ok (st.rem.take n) := by
  unfold peekBytes; rw [if_neg h]


theorem readBytes_ok_true (st : PlayerState) (n : Nat) (h : ¬ st.rem.length < n) :
    readBytes st n true = .ok (st.rem.take n,
      { st with rem := st.rem.drop n, crc := Crc32Update (st.rem.take n) st.crc }) := by
  unfold readBytes
  rw [if_neg h]
  rfl


set_option maxRecDepth 2000 in
example (b : Nat) : (c4DllEntryBytes ++ (c4PathBytes b ++ c4ExitBytes)).length = 148 := rfl

set_option maxRecDepth 2000 in
example (b : Nat) : signatureMatches
      (List.take 4 (c4DllEntryBytes ++ (c4PathBytes b ++ c4ExitBytes)))
      [69, 86, 78, 84] = true := rfl

set_option maxRecDepth 2000 in
example (b : Nat) : readU32le (List.take 4 (List.drop 12
      (List.take 48 (c4DllEntryBytes ++ (c4PathBytes b ++ c4ExitBytes))))) = 6 := rfl



set_option maxRecDepth 2000 in
theorem c4_next_dll (b c : Nat) (m : ModuleCollection) :
    Next (c4Config true) ⟨c4DllEntryBytes ++ (c4PathBytes b ++ c4ExitBytes), c, m⟩
      = .ok (some ([SinkEvent.onDllLoad 1700000100 (c4TPath b)
            ((m.Load (c4TPath b) 4096 512).GetIndex (c4TPath b)) 4096 512],
          ⟨c4ExitBytes, Crc32Update (c4PathBytes b) (Crc32Update c4DllEntryBytes c),
           m.Load (c4TPath b) 4096 512⟩)) := by
  have f1 : (c4DllEntryBytes ++ (c4PathBytes b ++ c4ExitBytes)).length = 148 := rfl
  have f2 : signatureMatches
      (List.take 4 (c4DllEntryBytes ++ (c4PathBytes b ++ c4ExitBytes)))
      [69, 86, 78, 84] = true := rfl
  have f3 : List.take 8 (List.drop 4
      (List.take 48 (c4DllEntryBytes ++ (c4PathBytes b ++ c4ExitBytes))))
      = u64le 1700000100 := rfl
  have f4 : List.take 4 (List.drop 12
      (List.take 48 (c4DllEntryBytes ++ (c4PathBytes b ++ c4ExitBytes))))
      = u32le 6 := rfl
  have f11 : List.take 80 (c4DllEntryBytes ++ (c4PathBytes b ++ c4ExitBytes))
      = c4DllEntryBytes := rfl
  have f5 : List.take 8 (List.drop 56 c4DllEntryBytes) = u64le 4096 := rfl
  have f6 : List.take 8 (List.drop 64 c4DllEntryBytes) = u64le 512 := rfl
  have f7 : List.take 8 (List.drop 72 c4DllEntryBytes) = u64le 8 := rfl
  have f8 : List.take (8 * 2)
      (List.drop 80 (c4DllEntryBytes ++ (c4PathBytes b ++ c4ExitBytes)))
      = c4PathBytes b := rfl
  have f9 : List.drop (8 * 2)
      (List.drop 80 (c4DllEntryBytes ++ (c4PathBytes b ++ c4ExitBytes)))
      = c4ExitBytes := rfl
  have f10 : parseWideString (c4PathBytes b) = c4TPath b := rfl
  unfold Next
  dsimp only
  rw [f1, if_neg (by norm_num : ¬ (148 < 4)), f2,
    if_neg (by simp : ¬ (true = false)),
    peekBytes_ok _ 48 (by rw [show ({ rem := c4DllEntryBytes ++ (c4PathBytes b ++ c4ExitBytes), crc := c, modules := m } : PlayerState).rem.length = 148 from f1]; norm_num)]
  dsimp only
  rw [f4, readU32le_u32le_nil (by norm_num), f3,
    readU64le_u64le_nil (by norm_num : (1700000100 : Nat) < 18446744073709551616)]
  dsimp only
  rw [readBytes_ok_true _ 80 (by rw [show ({ rem := c4DllEntryBytes ++ (c4PathBytes b ++ c4ExitBytes), crc := c, modules := m } : PlayerState).rem.length = 148 from f1]; norm_num)]
  simp only [f11]
  dsimp only [Bind.bind, Except.bind]
  unfold EmitDllLoad
  dsimp only
  simp only [f5, f6, f7,
    readU64le_u64le_nil (by norm_num : (4096 : Nat) < 18446744073709551616),
    readU64le_u64le_nil (by norm_num : (512 : Nat) < 18446744073709551616),
    readU64le_u64le_nil (by norm_num : (8 : Nat) < 18446744073709551616)]
  rw [readBytes_ok_true _ (8 * 2)
    (by rw [show ({ rem := List.drop 80 (c4DllEntryBytes ++ (c4PathBytes b ++ c4ExitBytes)), crc := Crc32Update c4DllEntryBytes c, modules := m } : PlayerState).rem.length = (c4DllEntryBytes ++ (c4PathBytes b ++ c4ExitBytes)).length - 80 from List.length_drop .., f1]; norm_num)]
  dsimp only [Bind.bind, Except.bind]
  simp only [f8, f9, f10]
  rw [show (c4Config true).shouldFilter = false from rfl]
  simp only [Bool.false_and]
  rw [if_neg (by simp : ¬ ((false : Bool) = true))]


set_option maxRecDepth 2000 in
theorem c4_next_exit (c : Nat) (m : ModuleCollection) :
    Next (c4Config true) ⟨c4ExitBytes, c, m⟩
      = .ok (some ([SinkEvent.onExitProcess 1700000200 0],
          ⟨[], Crc32Update c4ExitBytes c, m⟩)) := by
  have g1 : c4ExitBytes.length = 52 := rfl
  have g2 : signatureMatches (List.take 4 c4ExitBytes) [69, 86, 78, 84] = true := rfl
  have g3 : List.take 8 (List.drop 4 (List.take 48 c4ExitBytes))
      = u64le 1700000200 := rfl
  have g4 : List.take 4 (List.drop 12 (List.take 48 c4ExitBytes)) = u32le 5 := rfl
  have g5 : List.take 52 c4ExitBytes = c4ExitBytes := rfl
  have g6 : List.take 4 (List.drop 48 c4ExitBytes) = u32le 0 := rfl
  have g7 : List.drop 52 c4ExitBytes = ([] : List Nat) := rfl
  unfold Next
  dsimp only
  rw [g1, if_neg (by norm_num : ¬ (52 < 4)), g2,
    if_neg (by simp : ¬ (true = false)),
    peekBytes_ok _ 48 (by rw [show ({ rem := c4ExitBytes, crc := c, modules := m } : PlayerState).rem.length = 52 from g1]; norm_num)]
  dsimp only
  rw [g4, readU32le_u32le_nil (by norm_num), g3,
    readU64le_u64le_nil (by norm_num : (1700000200 : Nat) < 18446744073709551616)]
  dsimp only
  rw [readBytes_ok_true _ 52 (by rw [show ({ rem := c4ExitBytes, crc := c, modules := m } : PlayerState).rem.length = 52 from g1]; norm_num)]
  simp only [g5, g7]
  dsimp only [Bind.bind, Except.bind]
  unfold EmitExitProcess
  rw [show (c4Config true).shouldFilter = false from rfl]
  simp only [Bool.false_and]
  rw [if_neg (by simp : ¬ ((false : Bool) = true))]
  rw [g6, readU32le_u32le_nil (by norm_num)]

theorem c4_next_none (c : Nat) (m : ModuleCollection) :
    Next (c4Config true) ⟨[], c, m⟩ = .ok none := rfl

theorem PlayLoop_succ (cfg : PlayerConfig) (fuel : Nat) (st : PlayerState)
    (acc : List SinkEvent) :
    PlayLoop cfg (fuel + 1) st acc
      = match Next cfg st with
        | .error e => (acc, .error e)
        | .ok none => (acc, Except.ok st)
        | .ok (some (evts, st')) => PlayLoop cfg fuel st' (acc ++ evts) := rfl


set_option maxRecDepth 2000 in
theorem c4_play_core (file : List Nat) (b : Nat)
    (hopen : OpenPlayer true file
      = .ok ⟨[72, 0] ++ ([87, 0] ++ (c4DllEntryBytes ++ (c4PathBytes b ++ c4ExitBytes))),
             0, ModuleCollection.empty⟩)
    (hparse : parseFileHeader file = c4Header) :
    Play (c4Config true) file
      = ([SinkEvent.onInitialization 1700000000 1 2 [72] [87] [],
          SinkEvent.onDllLoad 1700000100 (c4TPath b)
            ((ModuleCollection.empty.Load (c4TPath b) 4096 512).GetIndex (c4TPath b))
            4096 512,
          SinkEvent.onExitProcess 1700000200 0,
          SinkEvent.onModuleCollectionComplete],
         if c4Header.Crc32 ≠ c4TamperedCrc b then some finalCrcError else none) := by
  have p1 : List.take (1 * 2)
      ([72, 0] ++ ([87, 0] ++ (c4DllEntryBytes ++ (c4PathBytes b ++ c4ExitBytes))))
      = [72, 0] := rfl
  have p2 : List.drop (1 * 2)
      ([72, 0] ++ ([87, 0] ++ (c4DllEntryBytes ++ (c4PathBytes b ++ c4ExitBytes))))
      = [87, 0] ++ (c4DllEntryBytes ++ (c4PathBytes b ++ c4ExitBytes)) := rfl
  have p3 : List.take (1 * 2)
      ([87, 0] ++ (c4DllEntryBytes ++ (c4PathBytes b ++ c4ExitBytes))) = [87, 0] := rfl
  have p4 : List.drop (1 * 2)
      ([87, 0] ++ (c4DllEntryBytes ++ (c4PathBytes b ++ c4ExitBytes)))
      = c4DllEntryBytes ++ (c4PathBytes b ++ c4ExitBytes) := rfl
  have hl1 : ([72, 0] ++ ([87, 0] ++ (c4DllEntryBytes ++ (c4PathBytes b ++ c4ExitBytes)))).length
      = 152 := rfl
  have hl2 : ([87, 0] ++ (c4DllEntryBytes ++ (c4PathBytes b ++ c4ExitBytes))).length
      = 150 := rfl
  have hl3 : (c4DllEntryBytes ++ (c4PathBytes b ++ c4ExitBytes)).length = 148 := rfl
  unfold Play
  rw [show (c4Config true).noSanityCheck = true from rfl, hopen]
  dsimp only
  simp only [hparse,
    show c4Header.PathLength = 1 from rfl,
    show c4Header.WorkingDirectoryLength = 1 from rfl,
    show c4Header.Arguments = 0 from rfl,
    show c4Header.ProcessId = 1 from rfl,
    show c4Header.ThreadId = 2 from rfl,
    show c4Header.StartTime = 1700000000 from rfl]
  rw [readBytes_ok_true _ (1 * 2)
    (by rw [show ({ rem := [72, 0] ++ ([87, 0] ++ (c4DllEntryBytes ++ (c4PathBytes b ++ c4ExitBytes))), crc := 0, modules := ModuleCollection.empty } : PlayerState).rem.length = 152 from hl1]; norm_num)]
  dsimp only
  simp only [p1, p2]
  rw [readBytes_ok_true _ (1 * 2)
    (by rw [show ({ rem := [87, 0] ++ (c4DllEntryBytes ++ (c4PathBytes b ++ c4ExitBytes)), crc := Crc32Update [72, 0] 0, modules := ModuleCollection.empty } : PlayerState).rem.length = 150 from hl2]; norm_num)]
  dsimp only
  simp only [p3, p4]
  rw [show ∀ st, readArguments 0 st = .ok ([], st) from fun _ => rfl]
  dsimp only
  rw [show parseWideString [72, 0] = [72] from rfl,
    show parseWideString [87, 0] = [87] from rfl, hl3]
  rw [PlayLoop_succ, c4_next_dll]
  dsimp only
  rw [show (148 : Nat) = 147 + 1 from rfl, PlayLoop_succ, c4_next_exit]
  dsimp only
  rw [show (147 : Nat) = 146 + 1 from rfl, PlayLoop_succ, c4_next_none]
  dsimp only
  simp only [List.nil_append]
  rfl


theorem c4File_eq : c4File = serializeFileHeader c4Header ++ c4Body := by
  unfold c4File c4Header c4Body
  exact writeSession_stream 1 2 [72] [87] [] 1700000000 c4Chunks

theorem c4Header_crc : c4Header.Crc32 = Crc32Update c4Body 0 := by
  unfold c4Header c4Body finalHeader
  rfl

theorem c4Header_crc_lt : c4Header.Crc32 < 4294967296 := by
  rw [c4Header_crc]
  exact Crc32Update_lt _ (by norm_num)

theorem c4_parse_file : parseFileHeader c4File = c4Header := by
  rw [c4File_eq]
  exact parseFileHeader_serializeFileHeader c4Header _ (by decide) (by decide)
    (by decide) (by decide) (by decide) (by decide) (by decide) c4Header_crc_lt

theorem c4_set_eq (b : Nat) :
    c4T b = serializeFileHeader c4Header ++ c4Body.set 99 b := by
  unfold c4T
  rw [c4File_eq, List.set_append_right _ _
    (by rw [serializeFileHeader_length]; omega), serializeFileHeader_length]

theorem c4_parse_set (b : Nat) : parseFileHeader (c4T b) = c4Header := by
  rw [c4_set_eq]
  exact parseFileHeader_serializeFileHeader c4Header _ (by decide) (by decide)
    (by decide) (by decide) (by decide) (by decide) (by decide) c4Header_crc_lt

theorem c4_drop_set (b : Nat) : (c4T b).drop 52 = c4Body.set 99 b := by
  rw [c4_set_eq]
  exact List.drop_left' (serializeFileHeader_length _)

theorem c4_set_split (b : Nat) :
    c4Body.set 99 b = c4BodyPre ++ b :: c4BodySuf :=
  List.set_eq_take_cons_drop b (by rw [show c4Body.length = 152 from rfl]; norm_num)

set_option maxRecDepth 2000 in
theorem c4Body_split : c4Body = c4BodyPre ++ 0 :: c4BodySuf := rfl

theorem c4_crc_ne (b : Nat) (hb : b < 256) (hbne : b ≠ 0) :
    Crc32Update (c4Body.set 99 b) 0 ≠ c4Header.Crc32 := by
  rw [c4Header_crc, c4_set_split b]
  conv_rhs => rw [c4Body_split]
  exact Crc32Update_single_byte_ne c4BodyPre c4BodySuf hb (by norm_num) hbne
    (by norm_num)

theorem c4_crc_merge (b : Nat) :
    c4TamperedCrc b = Crc32Update (c4Body.set 99 b) 0 := by
  unfold c4TamperedCrc
  rw [Crc32Update_append, Crc32Update_append, Crc32Update_append, Crc32Update_append,
    (c4_body_chunks b).symm.trans (c4_drop_set b)]

theorem c4_sanity (b : Nat) (hb : b < 256) (hbne : b ≠ 0) :
    CheckSanity (c4T b) = some checkSanityError := by
  unfold CheckSanity
  rw [c4_drop_set b, CheckSanityLoop_eq, c4_parse_set b, if_neg (c4_crc_ne b hb hbne)]

set_option maxRecDepth 2000 in
theorem c4_open_set (b : Nat) :
    OpenPlayer true (c4T b)
      = .ok ⟨[72, 0] ++ ([87, 0] ++ (c4DllEntryBytes ++ (c4PathBytes b ++ c4ExitBytes))),
             0, ModuleCollection.empty⟩ := by
  unfold OpenPlayer
  rw [show (c4T b).length = 204 from rfl, if_neg (by norm_num : ¬ (204 < 52)),
    c4_parse_set b,
    if_neg (show ¬ (c4Header.Version / 65536 ≠ hindsightVersionInt / 65536) from
      fun h => h rfl),
    if_neg (by simp : ¬ ((!true) = true))]
  rw [c4_body_chunks b]

set_option maxRecDepth 2000 in
theorem c4_untampered_chunks :
    c4File.drop 52
      = [72, 0] ++ ([87, 0] ++ (c4DllEntryBytes ++ (c4PathBytes 0 ++ c4ExitBytes))) := rfl

set_option maxRecDepth 2000 in
theorem c4_open_un :
    OpenPlayer true c4File
      = .ok ⟨[72, 0] ++ ([87, 0] ++ (c4DllEntryBytes ++ (c4PathBytes 0 ++ c4ExitBytes))),
             0, ModuleCollection.empty⟩ := by
  unfold OpenPlayer
  rw [show c4File.length = 204 from rfl, if_neg (by norm_num : ¬ (204 < 52)),
    c4_parse_file,
    if_neg (show ¬ (c4Header.Version / 65536 ≠ hindsightVersionInt / 65536) from
      fun h => h rfl),
    if_neg (by simp : ¬ ((!true) = true))]
  rw [c4_untampered_chunks]

theorem c4_open_sanity (b : Nat) (hb : b < 256) (hbne : b ≠ 0) :
    OpenPlayer false (c4T b) = .error checkSanityError := by
  unfold OpenPlayer
  rw [show (c4T b).length = 204 from rfl, if_neg (by norm_num : ¬ (204 < 52)),
    c4_parse_set b,
    if_neg (show ¬ (c4Header.Version / 65536 ≠ hindsightVersionInt / 65536) from
      fun h => h rfl),
    if_pos (by simp : (!false) = true), c4_sanity b hb hbne]

theorem c4_crc_eq_zero : ¬ (c4Header.Crc32 ≠ c4TamperedCrc 0) := by
  have hset0 : c4Body.set 99 0 = c4Body := (c4_set_split 0).trans c4Body_split.symm
  have he : c4TamperedCrc 0 = c4Header.Crc32 := by
    rw [c4_crc_merge 0, hset0]
    exact c4Header_crc.symm
  exact fun h => h he.symm

theorem c4_play_sanity_core (file : List Nat)
    (hopen : OpenPlayer false file = .error checkSanityError) :
    Play (c4Config false) file = ([], some checkSanityError) := by
  unfold Play
  rw [show (c4Config false).noSanityCheck = false from rfl, hopen]


/-- **C4 (counterexample)**  With the sanity check disabled and the last byte
of the recorded `LoadDll` path flipped from 0 to 1, `Play` does read the
whole file through and does deliver the altered path (last UTF-16 unit 364
instead of 108) to the sinks — but it does not complete cleanly: the
unconditional check at the end of `Play` raises the not-all-data error.  On
the untampered file the same replay ends with no error and the recorded
path. -/
theorem c4_counterexample :
    Play (c4Config true) (c4File.set 151 1)
      = ([SinkEvent.onInitialization 1700000000 1 2 [72] [87] [],
          SinkEvent.onDllLoad 1700000100 [67, 58, 92, 107, 46, 100, 108, 364] 0 4096 512,
          SinkEvent.onExitProcess 1700000200 0,
          SinkEvent.onModuleCollectionComplete], some finalCrcError)
    ∧ Play (c4Config true) c4File
      = ([SinkEvent.onInitialization 1700000000 1 2 [72] [87] [],
          SinkEvent.onDllLoad 1700000100 c4DllPath 0 4096 512,
          SinkEvent.onExitProcess 1700000200 0,
          SinkEvent.onModuleCollectionComplete], none) := by
  constructor
  · have h := c4_play_core (c4T 1) 1 (c4_open_set 1) (c4_parse_set 1)
    have hne : c4Header.Crc32 ≠ c4TamperedCrc 1 := by
      rw [c4_crc_merge 1]
      exact (c4_crc_ne 1 (by norm_num) (by norm_num)).symm
    rw [show c4File.set 151 1 = c4T 1 from rfl, h, GetIndex_load_empty, if_pos hne]
    rfl
  · have h := c4_play_core c4File 0 c4_open_un c4_parse_file
    rw [h, GetIndex_load_empty, if_neg c4_crc_eq_zero]
    rfl

/-- **C4 (amended)**  Changing the last byte of the recorded `LoadDll` path
to any other byte value: with the sanity check enabled the replayer rejects
the file at open with the damaged-file error; with `--no-sanity-check` it
reads the whole file through and delivers the altered data — a module path
differing from the recorded one — to the sinks, but `Play` still ends in an
error, because its final comparison of the accumulated CRC against the
header checksum is unconditional. -/
theorem c4_no_sanity_check_replays_wrong_data_but_still_errors
    (b : Nat) (hb : b < 256) (hbne : b ≠ 0) :
    Play (c4Config false) (c4File.set 151 b) = ([], some checkSanityError)
    ∧ Play (c4Config true) (c4File.set 151 b)
      = ([SinkEvent.onInitialization 1700000000 1 2 [72] [87] [],
          SinkEvent.onDllLoad 1700000100
            [67, 58, 92, 107, 46, 100, 108, 108 + 256 * b] 0 4096 512,
          SinkEvent.onExitProcess 1700000200 0,
          SinkEvent.onModuleCollectionComplete], some finalCrcError)
    ∧ [67, 58, 92, 107, 46, 100, 108, 108 + 256 * b] ≠ c4DllPath := by
  refine ⟨c4_play_sanity_core (c4T b) (c4_open_sanity b hb hbne), ?_, ?_⟩
  · have h := c4_play_core (c4T b) b (c4_open_set b) (c4_parse_set b)
    have hne : c4Header.Crc32 ≠ c4TamperedCrc b := by
      rw [c4_crc_merge b]
      exact (c4_crc_ne b hb hbne).symm
    rw [show c4File.set 151 b = c4T b from rfl, h, GetIndex_load_empty, if_pos hne]
    rfl
  · simp only [c4DllPath, ne_eq, List.cons.injEq]
    omega

/-- Witness for the amended C4 theorem at the concrete flip `0 → 1`. -/
theorem c4_no_sanity_check_replays_wrong_data_but_still_errors_witness :
    ((1 : Nat) < 256 ∧ (1 : Nat) ≠ 0)
    ∧ (Play (c4Config false) (c4File.set 151 1) = ([], some checkSanityError)
      ∧ Play (c4Config true) (c4File.set 151 1)
        = ([SinkEvent.onInitialization 1700000000 1 2 [72] [87] [],
            SinkEvent.onDllLoad 1700000100
              [67, 58, 92, 107, 46, 100, 108, 108 + 256 * 1] 0 4096 512,
            SinkEvent.onExitProcess 1700000200 0,
            SinkEvent.onModuleCollectionComplete], some finalCrcError)
      ∧ [67, 58, 92, 107, 46, 100, 108, 108 + 256 * 1] ≠ c4DllPath) :=
  ⟨⟨by decide, by decide⟩,
    c4_no_sanity_check_replays_wrong_data_but_still_errors 1 (by decide) (by decide)⟩

end Hindsight
